import Mathlib

/-!
# Teleop: action-client orchestration of `mobility/tools/teleop.cc`

A shallow embedding of the callbacks of `teleop.cc` and of the flag checks at
the start of `main`.

* Doubles are an arbitrary linearly ordered field `R`; the libm functions the
  source calls (`std::cos`, `std::sin`, `std::atan2`, `sqrt`) are the fields of
  `Libm R`.
* Everything the callbacks ask of their surroundings (connection state of the
  two action clients, the answer of `SendGoal`, `lookupTransform`,
  `Serialization::ReadFile` / `WriteFile`) is a field of `World R`.
* Every effect of a callback (`std::cout`, `ros::shutdown()`, a call of
  `SendGoal`, ...) is appended, in program order, to a trace of `Event`s.
* Constants that are declared outside the file (message constants, frame
  names) are the fields of `Constants`.
* The properties of the orientation override are stated over the reals, for libm
  functions that are the exact ones (`Libm.IsReal`).
-/

namespace Teleop

/-! ## Messages -/

/-- The message `geometry_msgs/Point` (also used for `geometry_msgs/Vector3`). -/
structure Vec3 (R : Type) where
  x : R
  y : R
  z : R
  deriving DecidableEq, Repr

/-- The message `geometry_msgs/Quaternion`, also the storage of `Eigen::Quaterniond`. -/
structure Quat (R : Type) where
  x : R
  y : R
  z : R
  w : R
  deriving DecidableEq, Repr

/-- The message `std_msgs/Header`; the stamp is in seconds. -/
structure Header (R : Type) where
  seq : Nat
  stamp : R
  frame_id : String
  deriving DecidableEq, Repr

/-- The message `geometry_msgs/Pose`. -/
structure Pose (R : Type) where
  position : Vec3 R
  orientation : Quat R
  deriving DecidableEq, Repr

/-- The message `geometry_msgs/PoseStamped`. -/
structure PoseStamped (R : Type) where
  header : Header R
  pose : Pose R
  deriving DecidableEq, Repr

/-- The message `geometry_msgs/Transform`. -/
structure Transform (R : Type) where
  translation : Vec3 R
  rotation : Quat R
  deriving DecidableEq, Repr

/-- The message `geometry_msgs/TransformStamped`. -/
structure TransformStamped (R : Type) where
  header : Header R
  child_frame_id : String
  transform : Transform R
  deriving DecidableEq, Repr

/-- A recorded segment (`ff_msgs/ControlState[]`), kept as its serialized content:
the file only copies it from a result into a goal. -/
abbrev Segment := List Nat

/-- The goal `ff_msgs/MotionGoal`, with the fields the file touches. -/
structure MotionGoal (R : Type) where
  command : Nat
  flight_mode : String
  states : List (PoseStamped R)
  segment : Segment
  deriving DecidableEq, Repr

/-- The result `ff_msgs/MotionResult`, with the fields the file reads. -/
structure MotionResult where
  response : Int
  segment : Segment
  deriving DecidableEq, Repr

/-- The goal `ff_msgs/SwitchGoal`. -/
structure SwitchGoal where
  pipeline : String
  deriving DecidableEq, Repr

/-- A freshly constructed `geometry_msgs::PoseStamped`: ROS zero-initialises
every field of a message. -/
def PoseStamped.init {R : Type} [Zero R] : PoseStamped R :=
  { header := { seq := 0, stamp := 0, frame_id := "" },
    pose := { position := ⟨0, 0, 0⟩, orientation := ⟨0, 0, 0, 0⟩ } }

/-- A freshly constructed `ff_msgs::MotionGoal`. -/
def MotionGoal.init {R : Type} : MotionGoal R :=
  { command := 0, flight_mode := "", states := [], segment := [] }

/-! ## Constants declared outside the file -/

/-- The names of the `ff_msgs::MotionResult` response constants that label a
`case` of the inner `switch` of `MResultCallback` (lines 119-173), in source order. -/
inductive MotionResponse where
  | ALREADY_THERE
  | SUCCESS
  | CANCELLED
  | PREEMPTED
  | PLAN_FAILED
  | VALIDATE_FAILED
  | CONTROL_FAILED
  | OBSTACLE_DETECTED
  | REPLAN_NOT_ENOUGH_TIME
  | REPLAN_FAILED
  | REVALIDATE_FAILED
  | NOT_IN_WAITING_MODE
  | INVALID_FLIGHT_MODE
  | UNEXPECTED_EMPTY_SEGMENT
  | COULD_NOT_RESAMPLE
  | UNEXPECTED_EMPTY_STATES
  | INVALID_COMMAND
  | CANNOT_QUERY_ROBOT_POSE
  | NOT_ON_FIRST_POSE
  | BAD_DESIRED_VELOCITY
  | BAD_DESIRED_ACCELERATION
  | BAD_DESIRED_OMEGA
  | BAD_DESIRED_ALPHA
  | BAD_DESIRED_RATE
  | TOLERANCE_VIOLATION_POSITION
  | TOLERANCE_VIOLATION_ATTITUDE
  | TOLERANCE_VIOLATION_VELOCITY
  | TOLERANCE_VIOLATION_OMEGA
  deriving DecidableEq, Repr, Fintype

/-- Modelled from the spec: the values of the constants that `teleop.cc` takes
from headers that are not part of the source (`ff_util/ff_names.h` for the frame
names, the generated `ff_msgs` headers for the command and response constants).
The spec gives their names only, so the values are parameters. -/
structure Constants where
  FRAME_NAME_WORLD : String
  FRAME_NAME_BODY : String
  EXEC : Nat
  IDLE : Nat
  STOP : Nat
  PREP : Nat
  MOVE : Nat
  response : MotionResponse → Int

/-- Modelled from the spec: `ff_util::FreeFlyerActionState::Enum`, declared in
`ff_util/ff_action.h`, which is not part of the source. The spec (4.3) lists the
seven result codes; `OTHER` stands for any further value of the enumeration
type, which both callbacks send to their `default:` label. -/
inductive FreeFlyerActionState where
  | SUCCESS
  | PREEMPTED
  | ABORTED
  | TIMEOUT_ON_CONNECT
  | TIMEOUT_ON_ACTIVE
  | TIMEOUT_ON_RESPONSE
  | TIMEOUT_ON_DEADLINE
  | OTHER (raw : Int)
  deriving DecidableEq, Repr

/-! ## Command line flags (lines 52-80) -/

/-- The gflags of the file, one field per `DEFINE_*`. -/
structure Flags (R : Type) where
  FLAGS_ns : String
  FLAGS_loc : String
  FLAGS_mode : String
  FLAGS_planner : String
  FLAGS_ff : Bool
  FLAGS_rate : R
  FLAGS_vel : R
  FLAGS_accel : R
  FLAGS_omega : R
  FLAGS_alpha : R
  FLAGS_move : Bool
  FLAGS_stop : Bool
  FLAGS_idle : Bool
  FLAGS_prep : Bool
  FLAGS_novalidate : Bool
  FLAGS_nocollision : Bool
  FLAGS_nobootstrap : Bool
  FLAGS_noimmediate : Bool
  FLAGS_replan : Bool
  FLAGS_timesync : Bool
  FLAGS_rec : String
  FLAGS_exec : String
  FLAGS_pos : String
  FLAGS_att : String
  FLAGS_wait : R
  FLAGS_connect : R
  FLAGS_active : R
  FLAGS_response : R
  FLAGS_deadline : R

/-- The default value of every flag, as given in its `DEFINE_*`. -/
def Flags.defaults {R : Type} [LinearOrderedField R] : Flags R :=
  { FLAGS_ns := "", FLAGS_loc := "", FLAGS_mode := "", FLAGS_planner := "trapezoidal",
    FLAGS_ff := false, FLAGS_rate := 1, FLAGS_vel := -1, FLAGS_accel := -1,
    FLAGS_omega := -1, FLAGS_alpha := -1, FLAGS_move := false, FLAGS_stop := false,
    FLAGS_idle := false, FLAGS_prep := false, FLAGS_novalidate := false,
    FLAGS_nocollision := false, FLAGS_nobootstrap := false, FLAGS_noimmediate := false,
    FLAGS_replan := false, FLAGS_timesync := false, FLAGS_rec := "", FLAGS_exec := "",
    FLAGS_pos := "", FLAGS_att := "", FLAGS_wait := 0, FLAGS_connect := 30,
    FLAGS_active := 30, FLAGS_response := 30, FLAGS_deadline := -1 }

/-! ## Surroundings and effects -/

/-- The libm functions called by the file. -/
structure Libm (R : Type) where
  sqrt : R → R
  cos : R → R
  sin : R → R
  atan2 : R → R → R

/-- The extraction `std::istream_iterator<double>` over a string: the doubles
read until the first failure. Extraction from the empty string reads nothing. -/
structure DoubleParser (R : Type) where
  parse : String → List R
  parse_empty : parse "" = []

/-- What a callback finds when it asks its surroundings. -/
structure World (R : Type) where
  /-- The answer of `client_s_->IsConnected()`. -/
  switch_connected : Bool
  /-- The answer of `client_t_->IsConnected()`. -/
  motion_connected : Bool
  /-- The answer of `client_s_->SendGoal(goal)`. -/
  switchSendGoal : SwitchGoal → Bool
  /-- The answer of `client_t_->SendGoal(goal)`. -/
  motionSendGoal : MotionGoal R → Bool
  /-- The answer of `tf_buffer_->lookupTransform(target, source, ros::Time(0))`:
  the transform, or the `what()` of the `tf2::TransformException` thrown. -/
  lookupTransform : String → String → Except String (TransformStamped R)
  /-- The outcome of `ff_util::Serialization::ReadFile(path, goal)`: the goal read, or
  `none` when the call returns `false`. -/
  readFile : String → Option (MotionGoal R)
  /-- The answer of `ff_util::Serialization::WriteFile(path, msg)`. -/
  writeFile : String → MotionGoal R → Bool

/-- The effects of a callback, in the order the program performs them. -/
inductive Event (R : Type) where
  /-- One statement writing the text to `std::cout`. -/
  | print (text : String)
  /-- A call of `ros::shutdown()`. -/
  | shutdown
  /-- A call of `tf_buffer_->lookupTransform`. -/
  | lookupTransform (target source : String)
  /-- A call of `SendGoal` on the switch client. -/
  | switchSendGoal (goal : SwitchGoal)
  /-- A call of `SendGoal` on the motion client. -/
  | motionSendGoal (goal : MotionGoal R)
  /-- A call of `Serialization::ReadFile`. -/
  | readFile (path : String)
  /-- A call of `Serialization::WriteFile`. -/
  | writeFile (path : String) (msg : MotionGoal R)
  deriving DecidableEq, Repr

/-! ## The parts of Eigen the file uses -/

/-- A 3x3 matrix, by rows. -/
structure Mat3 (R : Type) where
  r0 : Vec3 R
  r1 : Vec3 R
  r2 : Vec3 R

section Eigen

variable {R : Type} [LinearOrderedField R]

/-- The conversion `QuaternionBase::toRotationMatrix()` of Eigen, which
`q.matrix()` returns. -/
def Quat.matrix (q : Quat R) : Mat3 R :=
  let tx := 2 * q.x
  let ty := 2 * q.y
  let tz := 2 * q.z
  let twx := tx * q.w
  let twy := ty * q.w
  let twz := tz * q.w
  let txx := tx * q.x
  let txy := ty * q.x
  let txz := tz * q.x
  let tyy := ty * q.y
  let tyz := tz * q.y
  let tzz := tz * q.z
  { r0 := ⟨1 - (tyy + tzz), txy - twz, txz + twy⟩,
    r1 := ⟨txy + twz, 1 - (txx + tzz), tyz - twx⟩,
    r2 := ⟨txz - twy, tyz + twx, 1 - (txx + tyy)⟩ }

/-- The product of a 3x3 matrix and a vector. -/
def Mat3.mulVec (m : Mat3 R) (v : Vec3 R) : Vec3 R :=
  ⟨m.r0.x * v.x + m.r0.y * v.y + m.r0.z * v.z,
   m.r1.x * v.x + m.r1.y * v.y + m.r1.z * v.z,
   m.r2.x * v.x + m.r2.y * v.y + m.r2.z * v.z⟩

/-- The sum of squares `squaredNorm()` of Eigen. -/
def Vec3.squaredNorm (v : Vec3 R) : R :=
  v.x * v.x + v.y * v.y + v.z * v.z

/-- The in-place `normalize()` of Eigen: divides by the norm when the squared norm
is positive and leaves the vector as it is otherwise. -/
def Vec3.normalize (M : Libm R) (v : Vec3 R) : Vec3 R :=
  let z := v.squaredNorm
  if 0 < z then ⟨v.x / M.sqrt z, v.y / M.sqrt z, v.z / M.sqrt z⟩ else v

/-- The quaternion product `operator*` of Eigen. -/
def Quat.mul (a b : Quat R) : Quat R :=
  { w := a.w * b.w - a.x * b.x - a.y * b.y - a.z * b.z,
    x := a.w * b.x + a.x * b.w + a.y * b.z - a.z * b.y,
    y := a.w * b.y + a.y * b.w + a.z * b.x - a.x * b.z,
    z := a.w * b.z + a.z * b.w + a.x * b.y - a.y * b.x }

/-- The constructor `Eigen::Quaterniond(const AngleAxisd&)`: with `ha = 0.5 * angle`,
`w = cos(ha)` and `vec = sin(ha) * axis`. -/
def Quat.ofAngleAxis (M : Libm R) (angle : R) (ax : Vec3 R) : Quat R :=
  let ha := (1 / 2) * angle
  { w := M.cos ha, x := M.sin ha * ax.x, y := M.sin ha * ax.y, z := M.sin ha * ax.z }

end Eigen

/-! ## The switch result callback (lines 215-353) -/

section Callbacks

variable {R : Type} [LinearOrderedField R]

/-- Lines 240 and 243 of `SResultCallback`: the source frame passed to `lookupTransform`. -/
def bodyFrame (K : Constants) (F : Flags R) : String :=
  let ns := F.FLAGS_ns
  if ns = "" then "body" else ns ++ "/" ++ K.FRAME_NAME_BODY

/-- Lines 238-254 of `SResultCallback`: the live pose. When `lookupTransform` throws,
the handler prints, calls `ros::shutdown()` and execution goes on after the
`try` block with `state` as constructed. -/
def queryState (K : Constants) (F : Flags R) (W : World R) :
    List (Event R) × PoseStamped R :=
  let target := K.FRAME_NAME_WORLD
  let source := bodyFrame K F
  match W.lookupTransform target source with
  | .ok tfs =>
    ([Event.lookupTransform target source],
      { header := tfs.header,
        pose := { position := ⟨tfs.transform.translation.x, tfs.transform.translation.y,
                                tfs.transform.translation.z⟩,
                  orientation := tfs.transform.rotation } })
  | .error what =>
    ([Event.lookupTransform target source,
      Event.print ("Could not query the pose of the robot: " ++ what ++ "\n"),
      Event.shutdown],
     PoseStamped.init)

/-- Line 256 of `SResultCallback`: `state.header.stamp += ros::Duration(FLAGS_wait)`. -/
def deferState (F : Flags R) (state : PoseStamped R) : PoseStamped R :=
  { state with header := { state.header with stamp := state.header.stamp + F.FLAGS_wait } }

/-- Lines 257-268 of `SResultCallback`: parse `-pos` and overwrite the position. -/
def overridePosition (P : DoubleParser R) (F : Flags R) (state : PoseStamped R) :
    PoseStamped R :=
  let str_p := F.FLAGS_pos
  if str_p ≠ "" then
    let vec_p := P.parse str_p
    let px := if h : 0 < vec_p.length then vec_p[0] else state.pose.position.x
    let py := if h : 1 < vec_p.length then vec_p[1] else state.pose.position.y
    let pz := if h : 2 < vec_p.length then vec_p[2] else state.pose.position.z
    { state with pose := { state.pose with position := ⟨px, py, pz⟩ } }
  else state

/-- Lines 280-297 of `SResultCallback`: the orientation for a one-value `-att`.
The source also computes `p_check` and `p_check2`, which it never uses. -/
def yawOrientation (M : Libm R) (o : Quat R) (yaw : R) : Quat R :=
  let q0 : Quat R := { w := o.w, x := o.x, y := o.y, z := o.z }
  let x : Vec3 R := ⟨1, 0, 0⟩
  let p := q0.matrix.mulVec x
  let p : Vec3 R := { p with z := 0 }
  let p := p.normalize M
  let alpha := yaw - M.atan2 p.y p.x
  let qz : Quat R := { w := M.cos ((1 / 2) * alpha), x := 0, y := 0, z := M.sin ((1 / 2) * alpha) }
  let qd := qz.mul q0
  { x := qd.x, y := qd.y, z := qd.z, w := qd.w }

/-- Lines 298-307 of `SResultCallback`: the orientation for a four-value `-att`. -/
def axisAngleOrientation (M : Libm R) (a0 a1 a2 a3 : R) : Quat R :=
  let q := Quat.ofAngleAxis M a0 ⟨a1, a2, a3⟩
  { x := q.x, y := q.y, z := q.z, w := q.w }

/-- The text printed at lines 309-310. -/
def invalidAttText : String :=
  "Invalid axis-angle format passed to -att. " ++ "Four elements required. Aborting" ++ "\n"

/-- Lines 269-313 of `SResultCallback`: parse `-att` and overwrite the orientation.
The last component is `true` when the block leaves the `switch` by `break`. -/
def overrideAttitude (M : Libm R) (P : DoubleParser R) (F : Flags R)
    (state : PoseStamped R) : List (Event R) × PoseStamped R × Bool :=
  let str_a := F.FLAGS_att
  if str_a ≠ "" then
    let vec_a := P.parse str_a
    if h1 : vec_a.length = 1 then
      ([], { state with pose := { state.pose with
              orientation := yawOrientation M state.pose.orientation vec_a[0] } }, false)
    else if h4 : vec_a.length = 4 then
      ([], { state with pose := { state.pose with
              orientation := axisAngleOrientation M vec_a[0] vec_a[1] vec_a[2] vec_a[3] } },
        false)
    else if 0 < vec_a.length then
      ([Event.print invalidAttText], state, true)
    else ([], state, false)
  else ([], state, false)

/-- Lines 236-316 of `SResultCallback`: the block under `if (FLAGS_move)`. The last
component is `true` when the block leaves the `switch` by `break`. -/
def moveBlock (K : Constants) (M : Libm R) (P : DoubleParser R) (F : Flags R) (W : World R)
    (goal : MotionGoal R) : List (Event R) × MotionGoal R × Bool :=
  if F.FLAGS_move then
    let goal := { goal with command := K.MOVE }
    let (tr1, state) := queryState K F W
    let state := deferState F state
    let state := overridePosition P F state
    let (tr2, state, brk) := overrideAttitude M P F state
    if brk then (tr1 ++ tr2, goal, true)
    else (tr1 ++ tr2, { goal with states := goal.states ++ [state] }, false)
  else ([], goal, false)

/-- Lines 317-323 of `SResultCallback`: the block under `if (!FLAGS_exec.empty())`. The
last component is `true` when the block leaves the `switch` by `break`. -/
def execBlock (F : Flags R) (W : World R) (goal : MotionGoal R) :
    List (Event R) × MotionGoal R × Bool :=
  if F.FLAGS_exec ≠ "" then
    match W.readFile F.FLAGS_exec with
    | some g => ([Event.readFile F.FLAGS_exec], g, false)
    | none =>
      ([Event.readFile F.FLAGS_exec,
        Event.print ("Segment not loaded from file " ++ F.FLAGS_exec ++ "\n")],
       goal, true)
  else ([], goal, false)

/-- What `SResultCallback` has done when it returns: its effects and the last value
of its local variable `goal`. -/
structure SResult (R : Type) where
  trace : List (Event R)
  goal : MotionGoal R

/-- Lines 221-234 of `SResultCallback`: the goal after the `-idle`, `-stop` and `-prep`
tests. -/
def commandGoal (K : Constants) (F : Flags R) : MotionGoal R :=
  let goal : MotionGoal R := { (MotionGoal.init : MotionGoal R) with flight_mode := F.FLAGS_mode }
  let goal := if F.FLAGS_idle then { goal with command := K.IDLE } else goal
  let goal := if F.FLAGS_stop then { goal with command := K.STOP } else goal
  let goal := if F.FLAGS_prep then { goal with command := K.PREP } else goal
  goal

/-- Lines 324-332 and 352 of `SResultCallback`: the call of `SendGoal`. When the goal is
accepted the function returns; otherwise control falls through `case PREEMPTED`
and reaches `ros::shutdown()`. -/
def sendBlock (W : World R) (goal : MotionGoal R) : List (Event R) :=
  if !W.motionSendGoal goal then
    [Event.motionSendGoal goal,
      Event.print ("Mobility client did not accept goal" ++ "\n"),
      Event.print ("Error: PREEMPTED" ++ "\n"), Event.shutdown]
  else [Event.motionSendGoal goal]

/-- The function `SResultCallback` (lines 216-353). The payload `result` is never
read by the source and is left out. -/
def SResultCallback (K : Constants) (M : Libm R) (P : DoubleParser R) (F : Flags R)
    (W : World R) (result_code : FreeFlyerActionState) : SResult R :=
  let goal : MotionGoal R := { (MotionGoal.init : MotionGoal R) with flight_mode := F.FLAGS_mode }
  match result_code with
  | .SUCCESS =>
    let mv := moveBlock K M P F W (commandGoal K F)
    if mv.2.2 then ⟨mv.1 ++ [Event.shutdown], mv.2.1⟩
    else
      let ex := execBlock F W mv.2.1
      if ex.2.2 then ⟨mv.1 ++ ex.1 ++ [Event.shutdown], ex.2.1⟩
      else ⟨mv.1 ++ ex.1 ++ sendBlock W ex.2.1, ex.2.1⟩
  | .PREEMPTED => ⟨[Event.print ("Error: PREEMPTED" ++ "\n"), Event.shutdown], goal⟩
  | .ABORTED => ⟨[Event.print ("Error: ABORTED" ++ "\n"), Event.shutdown], goal⟩
  | .TIMEOUT_ON_CONNECT =>
    ⟨[Event.print ("Error: TIMEOUT_ON_CONNECT" ++ "\n"), Event.shutdown], goal⟩
  | .TIMEOUT_ON_ACTIVE =>
    ⟨[Event.print ("Error: TIMEOUT_ON_ACTIVE" ++ "\n"), Event.shutdown], goal⟩
  | .TIMEOUT_ON_RESPONSE =>
    ⟨[Event.print ("Error: TIMEOUT_ON_RESPONSE" ++ "\n"), Event.shutdown], goal⟩
  | .TIMEOUT_ON_DEADLINE =>
    ⟨[Event.print ("Error: TIMEOUT_ON_DEADLINE" ++ "\n"), Event.shutdown], goal⟩
  | .OTHER _ => ⟨[Event.print ("Error: UNKNOWN" ++ "\n"), Event.shutdown], goal⟩

/-! ## The connected callback (lines 355-378) -/

/-- The text printed at line 366. -/
def allConnectedText : String := "All actions connected. Sending command..." ++ "\n"

/-- Lines 365-377 of `ConnectedCallback`: what runs once both clients are connected
and `sent_` was false. -/
def submission (K : Constants) (M : Libm R) (P : DoubleParser R) (F : Flags R)
    (W : World R) : List (Event R) :=
  let out : List (Event R) := [Event.print allConnectedText]
  if F.FLAGS_loc ≠ "" then
    let switch_goal : SwitchGoal := { pipeline := F.FLAGS_loc }
    if !W.switchSendGoal switch_goal then
      out ++ [Event.switchSendGoal switch_goal,
              Event.print ("Switch client did not accept goal" ++ "\n")]
    else out ++ [Event.switchSendGoal switch_goal]
  else
    out ++ (SResultCallback K M P F W FreeFlyerActionState.SUCCESS).trace

/-- What `ConnectedCallback` has done when it returns: the value of the global
`sent_` and its effects. -/
structure ConnectedResult (R : Type) where
  sent_ : Bool
  trace : List (Event R)

/-- The function `ConnectedCallback` (lines 356-378), from a value of the global
`sent_`. -/
def ConnectedCallback (K : Constants) (M : Libm R) (P : DoubleParser R) (F : Flags R)
    (W : World R) (sent_ : Bool) : ConnectedResult R :=
  if !W.switch_connected then ⟨sent_, []⟩
  else if !W.motion_connected then ⟨sent_, []⟩
  else if sent_ then ⟨sent_, []⟩
  else ⟨true, submission K M P F W⟩

/-- A sequence of invocations of `ConnectedCallback`, one per element of the list
(the surroundings found by that invocation), threading the global `sent_`; the
result is the trace of each invocation. -/
def connectedRun (K : Constants) (M : Libm R) (P : DoubleParser R) (F : Flags R) :
    List (World R) → Bool → List (List (Event R))
  | [], _ => []
  | W :: Ws, sent_ =>
    (ConnectedCallback K M P F W sent_).trace ::
      connectedRun K M P F Ws (ConnectedCallback K M P F W sent_).sent_

/-! ## The motion result callback (lines 85-183) -/

/-- The inner `switch (result->response)` of `MResultCallback` (lines 118-177): the text
written before `std::endl`. The case labels are constants, compared in source order. -/
def responseMessage (K : Constants) (response : Int) : String :=
  if response = K.response .ALREADY_THERE then "We are already at the location"
  else if response = K.response .SUCCESS then "Motion succeeded"
  else if response = K.response .CANCELLED then "Motion cancelled by callee"
  else if response = K.response .PREEMPTED then "Motion preempted by thirdparty"
  else if response = K.response .PLAN_FAILED then "Plan/bootstrap failed"
  else if response = K.response .VALIDATE_FAILED then "Validate failed"
  else if response = K.response .CONTROL_FAILED then "Control failed"
  else if response = K.response .OBSTACLE_DETECTED then "Obstacle detected / replan disabled"
  else if response = K.response .REPLAN_NOT_ENOUGH_TIME then "Obstacle and no time to replan"
  else if response = K.response .REPLAN_FAILED then "Obstacle and replanning failed"
  else if response = K.response .REVALIDATE_FAILED then "Obstacle and revalidating failed"
  else if response = K.response .NOT_IN_WAITING_MODE then "Internal failure"
  else if response = K.response .INVALID_FLIGHT_MODE then "Invalid flight mode specified"
  else if response = K.response .UNEXPECTED_EMPTY_SEGMENT then "Segment empty"
  else if response = K.response .COULD_NOT_RESAMPLE then "Could not resample segment"
  else if response = K.response .UNEXPECTED_EMPTY_STATES then "State vector empty"
  else if response = K.response .INVALID_COMMAND then "Command rejected"
  else if response = K.response .CANNOT_QUERY_ROBOT_POSE then "Failed to find the current pose"
  else if response = K.response .NOT_ON_FIRST_POSE then "Not on first pose / no bootstrapping"
  else if response = K.response .BAD_DESIRED_VELOCITY then "Requested vel too high"
  else if response = K.response .BAD_DESIRED_ACCELERATION then "Requested accel too high"
  else if response = K.response .BAD_DESIRED_OMEGA then "Requested omega too high"
  else if response = K.response .BAD_DESIRED_ALPHA then "Requested alpha too high"
  else if response = K.response .BAD_DESIRED_RATE then "Requested rate too low"
  else if response = K.response .TOLERANCE_VIOLATION_POSITION then "Position tolerance violated"
  else if response = K.response .TOLERANCE_VIOLATION_ATTITUDE then "Attitude tolerance violated"
  else if response = K.response .TOLERANCE_VIOLATION_VELOCITY then "Velocity tolerance violated"
  else if response = K.response .TOLERANCE_VIOLATION_OMEGA then "Omega tolerance violated"
  else "Error: unknown"

/-- Lines 104-113 of `MResultCallback`: the block under `case SUCCESS`, before control
falls into the next case. It reads `result->segment`, so it has no defined outcome
(`none`) on a null payload when `-rec` is given. -/
def recordBlock (K : Constants) (F : Flags R) (W : World R) (result : Option MotionResult) :
    Option (List (Event R)) :=
  if F.FLAGS_rec ≠ "" then
    match result with
    | none => none
    | some res =>
      let msg : MotionGoal R :=
        { (MotionGoal.init : MotionGoal R) with
            command := K.EXEC, flight_mode := F.FLAGS_mode, segment := res.segment }
      if !W.writeFile F.FLAGS_rec msg then
        some [Event.writeFile F.FLAGS_rec msg, Event.print ("\n" ++ "Segment saved to " ++ F.FLAGS_rec)]
      else
        some [Event.writeFile F.FLAGS_rec msg, Event.print ("\n" ++ "Segment not saved")]
  else some []

/-- Lines 115-178 of `MResultCallback`: the block shared by the cases `SUCCESS`,
`PREEMPTED` and `ABORTED`. It reads `result->response`, so it has no defined outcome
(`none`) on a null payload. -/
def reportBlock (K : Constants) (result : Option MotionResult) : Option (List (Event R)) :=
  match result with
  | none => none
  | some res =>
    some [Event.print ("\n" ++ "Result: "), Event.print (responseMessage K res.response ++ "\n")]

/-- The function `MResultCallback` (lines 86-183). The payload `result` may be a null
pointer (`none`); the outcome is `none` when the source dereferences a null payload. -/
def MResultCallback (K : Constants) (F : Flags R) (W : World R)
    (result_code : FreeFlyerActionState) (result : Option MotionResult) :
    Option (List (Event R)) :=
  match result_code with
  | .TIMEOUT_ON_CONNECT =>
    some [Event.print ("Timeout on connecting to action" ++ "\n"), Event.shutdown]
  | .TIMEOUT_ON_ACTIVE =>
    some [Event.print ("Timeout on action going active" ++ "\n"), Event.shutdown]
  | .TIMEOUT_ON_RESPONSE =>
    some [Event.print ("Timeout on receiving a response" ++ "\n"), Event.shutdown]
  | .TIMEOUT_ON_DEADLINE =>
    some [Event.print ("Timeout on result deadline" ++ "\n"), Event.shutdown]
  | .SUCCESS =>
    match recordBlock K F W result with
    | none => none
    | some tr1 =>
      match reportBlock K result with
      | none => none
      | some tr2 => some (tr1 ++ tr2 ++ [Event.shutdown])
  | .PREEMPTED =>
    match reportBlock K result with
    | none => none
    | some tr2 => some (tr2 ++ [Event.shutdown])
  | .ABORTED =>
    match reportBlock K result with
    | none => none
    | some tr2 => some (tr2 ++ [Event.shutdown])
  | .OTHER _ => some [Event.shutdown]

/-- The text written by the `case` that each response constant labels (lines 119-174). -/
def caseText : MotionResponse → String
  | .ALREADY_THERE => "We are already at the location"
  | .SUCCESS => "Motion succeeded"
  | .CANCELLED => "Motion cancelled by callee"
  | .PREEMPTED => "Motion preempted by thirdparty"
  | .PLAN_FAILED => "Plan/bootstrap failed"
  | .VALIDATE_FAILED => "Validate failed"
  | .CONTROL_FAILED => "Control failed"
  | .OBSTACLE_DETECTED => "Obstacle detected / replan disabled"
  | .REPLAN_NOT_ENOUGH_TIME => "Obstacle and no time to replan"
  | .REPLAN_FAILED => "Obstacle and replanning failed"
  | .REVALIDATE_FAILED => "Obstacle and revalidating failed"
  | .NOT_IN_WAITING_MODE => "Internal failure"
  | .INVALID_FLIGHT_MODE => "Invalid flight mode specified"
  | .UNEXPECTED_EMPTY_SEGMENT => "Segment empty"
  | .COULD_NOT_RESAMPLE => "Could not resample segment"
  | .UNEXPECTED_EMPTY_STATES => "State vector empty"
  | .INVALID_COMMAND => "Command rejected"
  | .CANNOT_QUERY_ROBOT_POSE => "Failed to find the current pose"
  | .NOT_ON_FIRST_POSE => "Not on first pose / no bootstrapping"
  | .BAD_DESIRED_VELOCITY => "Requested vel too high"
  | .BAD_DESIRED_ACCELERATION => "Requested accel too high"
  | .BAD_DESIRED_OMEGA => "Requested omega too high"
  | .BAD_DESIRED_ALPHA => "Requested alpha too high"
  | .BAD_DESIRED_RATE => "Requested rate too low"
  | .TOLERANCE_VIOLATION_POSITION => "Position tolerance violated"
  | .TOLERANCE_VIOLATION_ATTITUDE => "Attitude tolerance violated"
  | .TOLERANCE_VIOLATION_VELOCITY => "Velocity tolerance violated"
  | .TOLERANCE_VIOLATION_OMEGA => "Omega tolerance violated"

/-! ## The flag checks of `main` (lines 388-417) -/

/-- Lines 389-394 of `main`: the counter `mode`. -/
def modeCount (F : Flags R) : Nat :=
  let mode := 0
  let mode := if F.FLAGS_exec ≠ "" then mode + 1 else mode
  let mode := if F.FLAGS_idle then mode + 1 else mode
  let mode := if F.FLAGS_stop then mode + 1 else mode
  let mode := if F.FLAGS_move then mode + 1 else mode
  let mode := if F.FLAGS_prep then mode + 1 else mode
  mode

/-- The text printed at lines 397-398. -/
def mustSpecifyText : String :=
  "You must specify one of " ++ "-loc, -move, -stop, -idle, -exec <segment>" ++ "\n"

/-- The text printed at lines 402-403. -/
def onlyOneText : String :=
  "You can only specify one of " ++ "-move, -stop, -idle, or -exec <segment>" ++ "\n"

/-- Lines 388-417 of `main`: the checks made before the action clients are created.
The result is `some (text, status)` when `main` prints the text and returns the
status, and `none` when it goes on to create the action clients (line 419). -/
def mainChecks (F : Flags R) : Option (String × Nat) :=
  let mode := modeCount F
  if F.FLAGS_loc = "" ∧ mode = 0 then
    some (mustSpecifyText, 1)
  else if mode > 1 then
    some (onlyOneText, 1)
  else if F.FLAGS_connect ≤ 0 then
    some ("Your connect timeout must be positive" ++ "\n", 1)
  else if F.FLAGS_active ≤ 0 then
    some ("Your active timeout must be positive" ++ "\n", 1)
  else if F.FLAGS_response ≤ 0 then
    some ("Your response timeout must be positive" ++ "\n", 1)
  else none

end Callbacks

/-! ## Observations on traces -/

section Observations

variable {R : Type} [LinearOrderedField R]

/-- An invocation of `ConnectedCallback` ran the submission path: its first effect is
the print of line 366. -/
def ranSubmission (tr : List (Event R)) : Bool :=
  decide (tr.head? = some (Event.print allConnectedText))

/-- The number of invocations, in a sequence of them, that ran the submission path. -/
def submissionRuns (trs : List (List (Event R))) : Nat :=
  trs.countP ranSubmission

/-- The number of invocations, in a sequence of them, that had any effect at all. -/
def effectfulRuns (trs : List (List (Event R))) : Nat :=
  trs.countP fun tr => !tr.isEmpty

/-- The event is a call of `SendGoal` on the switch client. -/
def isSwitchSend : Event R → Bool
  | .switchSendGoal _ => true
  | _ => false

/-- The number of calls of `SendGoal` on the switch client in a trace. -/
def switchSends (tr : List (Event R)) : Nat :=
  tr.countP isSwitchSend

/-- The number of calls of `SendGoal` on the switch client over a sequence of invocations. -/
def switchSendTotal (trs : List (List (Event R))) : Nat :=
  (trs.map switchSends).sum

/-- Some invocation in the sequence finds both clients connected. -/
def bothConnectedOnce (Ws : List (World R)) : Bool :=
  Ws.any fun W => W.switch_connected && W.motion_connected

/-- The trace holds a call of `SendGoal` on the motion client. -/
def sendsMotionGoal (tr : List (Event R)) : Prop :=
  ∃ g, Event.motionSendGoal g ∈ tr

/-- The trace holds a call of `Serialization::WriteFile`. -/
def writesFile (tr : List (Event R)) : Prop :=
  ∃ path msg, Event.writeFile path msg ∈ tr

/-- The goal that `MResultCallback` hands to `WriteFile` (lines 105-108), written out
field by field. -/
def recordedGoal (K : Constants) (F : Flags R) (res : MotionResult) : MotionGoal R :=
  { command := K.EXEC, flight_mode := F.FLAGS_mode, states := [], segment := res.segment }

/-- The count of values read from `-att` is one the source accepts. -/
def attCountAccepted (P : DoubleParser R) (F : Flags R) : Prop :=
  (P.parse F.FLAGS_att).length = 0 ∨ (P.parse F.FLAGS_att).length = 1 ∨
    (P.parse F.FLAGS_att).length = 4

/-- The number of motion intents selected, in the words of the specification: move,
stop, idle, prep and execute-recorded (`-exec`). -/
def selectedMotionIntents (F : Flags R) : Nat :=
  [F.FLAGS_move, F.FLAGS_stop, F.FLAGS_idle, F.FLAGS_prep,
    decide (F.FLAGS_exec ≠ "")].count true

/-- The number of top-level intents selected, in the words of the specification: switch
pipeline (`-loc`), move, stop, idle, prep and execute-recorded (`-exec`). -/
def selectedIntents (F : Flags R) : Nat :=
  [decide (F.FLAGS_loc ≠ ""), F.FLAGS_move, F.FLAGS_stop, F.FLAGS_idle, F.FLAGS_prep,
    decide (F.FLAGS_exec ≠ "")].count true

end Observations

/-! ## Observations on orientations -/

section Orientations

variable {R : Type} [LinearOrderedField R]

/-- The squared norm of a quaternion. -/
def Quat.normSq (q : Quat R) : R :=
  q.w * q.w + q.x * q.x + q.y * q.y + q.z * q.z

/-- The libm functions over the reals are the exact ones: `sqrt`, `cos`, `sin`, and
`atan2(y, x)` as the argument of `x + y i` in `(-π, π]`. -/
def Libm.IsReal (M : Libm ℝ) : Prop :=
  (∀ t, M.sqrt t = Real.sqrt t) ∧ (∀ t, M.cos t = Real.cos t) ∧
    (∀ t, M.sin t = Real.sin t) ∧ ∀ y x, M.atan2 y x = Complex.arg ⟨x, y⟩

end Orientations

/-! ## Concrete surroundings, for evaluating the callbacks -/

/-- A sample assignment of the constants declared outside the file: the response
constants count down from 2 in source order, the commands are numbered from 0. -/
def sampleConstants : Constants :=
  { FRAME_NAME_WORLD := "world", FRAME_NAME_BODY := "body",
    STOP := 0, IDLE := 1, EXEC := 2, MOVE := 3, PREP := 4,
    response := fun n => 2 - (n.toCtorIdx : Int) }

/-- The value of a decimal digit. -/
def digitValue (c : Char) : Option Nat :=
  if 48 ≤ c.toNat ∧ c.toNat ≤ 57 then some (c.toNat - 48) else none

/-- Reads a run of decimal digits: the number read so far, the count of digits read
and the rest of the input. -/
def readDigits : List Char → Nat → Nat → Nat × Nat × List Char
  | [], v, n => (v, n, [])
  | c :: cs, v, n =>
    match digitValue c with
    | some d => readDigits cs (10 * v + d) (n + 1)
    | none => (v, n, c :: cs)

/-- Drops leading blanks. -/
def skipBlanks : List Char → List Char
  | ' ' :: cs => skipBlanks cs
  | cs => cs

/-- Reads one decimal literal `[+-]digits[.digits]`: its sign, its digits as a
number, the count of digits after the point, and the rest of the input. -/
def readNumber (cs : List Char) : Option (Bool × Nat × Nat × List Char) :=
  let signed : Bool × List Char :=
    match cs with
    | '-' :: t => (true, t)
    | '+' :: t => (false, t)
    | _ => (false, cs)
  let whole := readDigits signed.2 0 0
  match whole.2.2 with
  | '.' :: t =>
    let frac := readDigits t whole.1 0
    if whole.2.1 + frac.2.1 = 0 then none else some (signed.1, frac.1, frac.2.1, frac.2.2)
  | rest => if whole.2.1 = 0 then none else some (signed.1, whole.1, 0, rest)

/-- Reads decimal literals separated by blanks until one fails to read. -/
def readNumbers : Nat → List Char → List (Bool × Nat × Nat)
  | 0, _ => []
  | fuel + 1, cs =>
    match readNumber (skipBlanks cs) with
    | none => []
    | some (neg, m, k, rest) => (neg, m, k) :: readNumbers fuel rest

/-- The rational a decimal literal stands for. -/
def decimalValue (t : Bool × Nat × Nat) : ℚ :=
  (if t.1 then -1 else 1) * (t.2.1 : ℚ) / 10 ^ t.2.2

/-- A `DoubleParser` over the rationals, for blank-separated decimal literals without
exponent. -/
def decimalParser : DoubleParser ℚ where
  parse s := (readNumbers s.data.length s.data).map decimalValue
  parse_empty := rfl

/-- Stand-ins for the libm functions over the rationals, for evaluating the callbacks
where the orientation does not matter. -/
def sampleLibm : Libm ℚ :=
  { sqrt := fun x => x, cos := fun _ => 1, sin := fun _ => 0, atan2 := fun _ _ => 0 }

/-- Surroundings in which both clients are connected, every goal is accepted, the
robot is at the origin with the identity orientation, and no segment file can be
read or written (`WriteFile` answers `false`, `ReadFile` answers `false`). -/
def sampleWorld : World ℚ :=
  { switch_connected := true, motion_connected := true,
    switchSendGoal := fun _ => true, motionSendGoal := fun _ => true,
    lookupTransform := fun target _ =>
      .ok { header := { seq := 0, stamp := 0, frame_id := target }, child_frame_id := "body",
            transform := { translation := ⟨0, 0, 0⟩, rotation := ⟨0, 0, 0, 1⟩ } },
    readFile := fun _ => none, writeFile := fun _ _ => false }

/-- A `DoubleParser` over any field from one over the rationals, by the cast of each
value read. -/
def castParser {R : Type} [DivisionRing R] (P : DoubleParser ℚ) : DoubleParser R where
  parse s := (P.parse s).map fun q => (q : R)
  parse_empty := by simp [P.parse_empty]

/-- The surroundings of `sampleWorld` over any field: both clients connected, every
goal accepted, the robot at the origin with the identity orientation. -/
def originWorld {R : Type} [LinearOrderedField R] : World R :=
  { switch_connected := true, motion_connected := true,
    switchSendGoal := fun _ => true, motionSendGoal := fun _ => true,
    lookupTransform := fun target _ =>
      .ok { header := { seq := 0, stamp := 0, frame_id := target }, child_frame_id := "body",
            transform := { translation := ⟨0, 0, 0⟩, rotation := ⟨0, 0, 0, 1⟩ } },
    readFile := fun _ => none, writeFile := fun _ _ => false }

/-! ## Properties of the connected callback -/

section ConnectedCallbackProps

variable {R : Type} [LinearOrderedField R]

theorem ranSubmission_submission (K : Constants) (M : Libm R) (P : DoubleParser R)
    (F : Flags R) (W : World R) : ranSubmission (submission K M P F W) = true := by
  unfold ranSubmission submission
  by_cases hloc : F.FLAGS_loc = ""
  · simp [hloc]
  · by_cases hs : W.switchSendGoal { pipeline := F.FLAGS_loc } <;> simp [hloc, hs]

theorem ConnectedCallback_eq (K : Constants) (M : Libm R) (P : DoubleParser R)
    (F : Flags R) (W : World R) (sent_ : Bool) :
    ConnectedCallback K M P F W sent_ =
      if W.switch_connected = true ∧ W.motion_connected = true ∧ sent_ = false then
        ⟨true, submission K M P F W⟩
      else ⟨sent_, []⟩ := by
  unfold ConnectedCallback
  cases hs : W.switch_connected <;> cases ht : W.motion_connected <;> cases sent_ <;> simp

theorem submissionRuns_connectedRun (K : Constants) (M : Libm R) (P : DoubleParser R)
    (F : Flags R) (Ws : List (World R)) (sent_ : Bool) :
    submissionRuns (connectedRun K M P F Ws sent_) =
      if sent_ = false ∧ bothConnectedOnce Ws = true then 1 else 0 := by
  induction Ws generalizing sent_ with
  | nil => simp [connectedRun, submissionRuns, bothConnectedOnce]
  | cons W Ws ih =>
    have ih0 := ih (ConnectedCallback K M P F W sent_).sent_
    unfold submissionRuns at ih0 ⊢
    rw [connectedRun, List.countP_cons, ih0, ConnectedCallback_eq]
    by_cases h : W.switch_connected = true ∧ W.motion_connected = true ∧ sent_ = false
    · obtain ⟨h1, h2, h3⟩ := h
      simp [h1, h2, h3, bothConnectedOnce, ranSubmission_submission]
    · rw [if_neg h]
      cases sent_
      · have h' : (W.switch_connected && W.motion_connected) = false := by
          cases hs : W.switch_connected <;> cases ht : W.motion_connected <;> simp_all
        simp [bothConnectedOnce, h', ranSubmission]
      · simp [ranSubmission]

theorem submission_eq (K : Constants) (M : Libm R) (P : DoubleParser R) (F : Flags R)
    (W : World R) :
    submission K M P F W =
      Event.print "All actions connected. Sending command...\n" ::
        (if F.FLAGS_loc ≠ "" then
          Event.switchSendGoal { pipeline := F.FLAGS_loc } ::
            (if W.switchSendGoal { pipeline := F.FLAGS_loc } = true then []
              else [Event.print "Switch client did not accept goal\n"])
        else (SResultCallback K M P F W FreeFlyerActionState.SUCCESS).trace) := by
  unfold submission
  by_cases hloc : F.FLAGS_loc = ""
  · simp [hloc, allConnectedText]
  · by_cases hs : W.switchSendGoal { pipeline := F.FLAGS_loc } <;>
      simp [hloc, hs, allConnectedText]

theorem connectedRun_mem (K : Constants) (M : Libm R) (P : DoubleParser R) (F : Flags R)
    (Ws : List (World R)) (sent_ : Bool) (tr : List (Event R))
    (h : tr ∈ connectedRun K M P F Ws sent_) :
    tr = [] ∨ ∃ W ∈ Ws, W.switch_connected = true ∧ W.motion_connected = true ∧
      tr = submission K M P F W := by
  induction Ws generalizing sent_ with
  | nil => simp [connectedRun] at h
  | cons W Ws ih =>
    rw [connectedRun, List.mem_cons] at h
    rcases h with h | h
    · rw [ConnectedCallback_eq] at h
      by_cases hc : W.switch_connected = true ∧ W.motion_connected = true ∧ sent_ = false
      · rw [if_pos hc] at h
        exact Or.inr ⟨W, List.mem_cons_self _ _, hc.1, hc.2.1, h⟩
      · rw [if_neg hc] at h
        exact Or.inl h
    · rcases ih _ h with h0 | ⟨W2, hW2, hs, ht, htr⟩
      · exact Or.inl h0
      · exact Or.inr ⟨W2, List.mem_cons_of_mem _ hW2, hs, ht, htr⟩

theorem effectfulRuns_connectedRun (K : Constants) (M : Libm R) (P : DoubleParser R)
    (F : Flags R) (Ws : List (World R)) (sent_ : Bool) :
    effectfulRuns (connectedRun K M P F Ws sent_) =
      submissionRuns (connectedRun K M P F Ws sent_) := by
  unfold effectfulRuns submissionRuns
  apply List.countP_congr
  intro tr htr
  rcases connectedRun_mem K M P F Ws sent_ tr htr with h | ⟨W, _, _, _, h⟩
  · subst h
    simp [ranSubmission]
  · subst h
    rw [ranSubmission_submission]
    simp [submission_eq]

end ConnectedCallbackProps

section SwitchSends

variable {R : Type} [LinearOrderedField R]

theorem switchSends_queryState (K : Constants) (F : Flags R) (W : World R) :
    switchSends (queryState K F W).1 = 0 := by
  unfold queryState switchSends
  cases h : W.lookupTransform K.FRAME_NAME_WORLD (bodyFrame K F) <;>
    simp [h, isSwitchSend]

theorem switchSends_overrideAttitude (M : Libm R) (P : DoubleParser R) (F : Flags R)
    (state : PoseStamped R) : switchSends (overrideAttitude M P F state).1 = 0 := by
  unfold overrideAttitude switchSends
  dsimp only
  split_ifs <;> simp [isSwitchSend]

theorem switchSends_moveBlock (K : Constants) (M : Libm R) (P : DoubleParser R) (F : Flags R)
    (W : World R) (goal : MotionGoal R) : switchSends (moveBlock K M P F W goal).1 = 0 := by
  have hq := switchSends_queryState K F W
  have ha := switchSends_overrideAttitude M P F
    (overridePosition P F (deferState F (queryState K F W).2))
  unfold switchSends at hq ha ⊢
  unfold moveBlock
  by_cases hmove : F.FLAGS_move = true
  · simp only [hmove, if_true]
    split_ifs <;> simp [List.countP_append, hq, ha]
  · simp [hmove]

omit [LinearOrderedField R] in
theorem switchSends_execBlock (F : Flags R) (W : World R) (goal : MotionGoal R) :
    switchSends (execBlock F W goal).1 = 0 := by
  unfold execBlock switchSends
  split_ifs
  · cases W.readFile F.FLAGS_exec <;> simp [isSwitchSend]
  · simp

omit [LinearOrderedField R] in
theorem switchSends_sendBlock (W : World R) (goal : MotionGoal R) :
    switchSends (sendBlock W goal) = 0 := by
  unfold sendBlock switchSends
  split_ifs <;> simp [isSwitchSend]

theorem switchSends_SResultCallback (K : Constants) (M : Libm R) (P : DoubleParser R)
    (F : Flags R) (W : World R) :
    switchSends (SResultCallback K M P F W FreeFlyerActionState.SUCCESS).trace = 0 := by
  have hm := switchSends_moveBlock K M P F W (commandGoal K F)
  have he := switchSends_execBlock F W (moveBlock K M P F W (commandGoal K F)).2.1
  have hs := switchSends_sendBlock W
    (execBlock F W (moveBlock K M P F W (commandGoal K F)).2.1).2.1
  unfold switchSends at hm he hs ⊢
  simp only [SResultCallback]
  split_ifs <;> simp [List.countP_append, hm, he, hs, isSwitchSend]

theorem switchSends_submission (K : Constants) (M : Libm R) (P : DoubleParser R)
    (F : Flags R) (W : World R) :
    switchSends (submission K M P F W) = if F.FLAGS_loc ≠ "" then 1 else 0 := by
  rw [submission_eq]
  have hS := switchSends_SResultCallback K M P F W
  unfold switchSends at hS ⊢
  by_cases hloc : F.FLAGS_loc = ""
  · simp [hloc, hS, isSwitchSend]
  · by_cases hs : W.switchSendGoal { pipeline := F.FLAGS_loc } <;>
      simp [hloc, hs, isSwitchSend]

theorem switchSendTotal_connectedRun (K : Constants) (M : Libm R) (P : DoubleParser R)
    (F : Flags R) (Ws : List (World R)) (sent_ : Bool) :
    switchSendTotal (connectedRun K M P F Ws sent_) =
      if sent_ = false ∧ bothConnectedOnce Ws = true ∧ F.FLAGS_loc ≠ "" then 1 else 0 := by
  induction Ws generalizing sent_ with
  | nil => simp [connectedRun, switchSendTotal, bothConnectedOnce]
  | cons W Ws ih =>
    have ih0 := ih (ConnectedCallback K M P F W sent_).sent_
    unfold switchSendTotal at ih0 ⊢
    rw [connectedRun, List.map_cons, List.sum_cons, ih0, ConnectedCallback_eq]
    by_cases h : W.switch_connected = true ∧ W.motion_connected = true ∧ sent_ = false
    · obtain ⟨h1, h2, h3⟩ := h
      simp [h1, h2, h3, bothConnectedOnce, switchSends_submission]
    · rw [if_neg h]
      cases sent_
      · have h' : (W.switch_connected && W.motion_connected) = false := by
          cases hs : W.switch_connected <;> cases ht : W.motion_connected <;> simp_all
        simp [bothConnectedOnce, h', switchSends]
      · simp [switchSends]

/-- C1: a single invocation of `ConnectedCallback` runs the submission path iff both
clients are connected and `sent_` was false. It then sets `sent_`, prints the text of
line 366 and either calls `SendGoal` on the switch client (reporting a refusal), when
`-loc` is given, or has the effects of `SResultCallback` with a synthesized `SUCCESS`;
otherwise it has no effect and leaves `sent_` as it was. Over any sequence of invocations
starting from `sent_ = false`: every invocation has either no effect or exactly those
effects for the surroundings it found, at most one invocation has an effect, the switch
goal is sent at most once, and exactly one invocation runs the submission path (sending
the switch goal exactly once when `-loc` is given) when some invocation finds both
clients connected. -/
theorem C1_submission_runs_once (K : Constants) (M : Libm R) (P : DoubleParser R)
    (F : Flags R) :
    (∀ (W : World R) (sent_ : Bool),
      ConnectedCallback K M P F W sent_ =
        if W.switch_connected = true ∧ W.motion_connected = true ∧ sent_ = false then
          ⟨true,
            Event.print "All actions connected. Sending command...\n" ::
              (if F.FLAGS_loc ≠ "" then
                Event.switchSendGoal { pipeline := F.FLAGS_loc } ::
                  (if W.switchSendGoal { pipeline := F.FLAGS_loc } = true then []
                    else [Event.print "Switch client did not accept goal\n"])
              else (SResultCallback K M P F W FreeFlyerActionState.SUCCESS).trace)⟩
        else ⟨sent_, []⟩) ∧
    (∀ (W : World R) (sent_ : Bool),
      ranSubmission (ConnectedCallback K M P F W sent_).trace = true ↔
        (W.switch_connected = true ∧ W.motion_connected = true ∧ sent_ = false)) ∧
    (∀ (Ws : List (World R)) (tr : List (Event R)),
      tr ∈ connectedRun K M P F Ws false →
        tr = [] ∨ ∃ W ∈ Ws, W.switch_connected = true ∧ W.motion_connected = true ∧
          tr = Event.print "All actions connected. Sending command...\n" ::
            (if F.FLAGS_loc ≠ "" then
              Event.switchSendGoal { pipeline := F.FLAGS_loc } ::
                (if W.switchSendGoal { pipeline := F.FLAGS_loc } = true then []
                  else [Event.print "Switch client did not accept goal\n"])
            else (SResultCallback K M P F W FreeFlyerActionState.SUCCESS).trace)) ∧
    (∀ Ws : List (World R),
      submissionRuns (connectedRun K M P F Ws false) ≤ 1 ∧
      effectfulRuns (connectedRun K M P F Ws false) ≤ 1 ∧
      switchSendTotal (connectedRun K M P F Ws false) ≤ 1) ∧
    (∀ Ws : List (World R),
      (∃ W ∈ Ws, W.switch_connected = true ∧ W.motion_connected = true) →
        submissionRuns (connectedRun K M P F Ws false) = 1 ∧
        effectfulRuns (connectedRun K M P F Ws false) = 1 ∧
        (F.FLAGS_loc ≠ "" → switchSendTotal (connectedRun K M P F Ws false) = 1)) := by
  refine ⟨?_, ?_, ?_, ?_, ?_⟩
  · intro W sent_
    rw [ConnectedCallback_eq, submission_eq]
  · intro W sent_
    rw [ConnectedCallback_eq]
    by_cases h : W.switch_connected = true ∧ W.motion_connected = true ∧ sent_ = false
    · simp only [if_pos h, ranSubmission_submission]
      simp [h]
    · simp only [if_neg h]
      simp [ranSubmission, h]
  · intro Ws tr htr
    rcases connectedRun_mem K M P F Ws false tr htr with h | ⟨W, hW, hs, ht, h⟩
    · exact Or.inl h
    · exact Or.inr ⟨W, hW, hs, ht, by rw [h, submission_eq]⟩
  · intro Ws
    rw [effectfulRuns_connectedRun, submissionRuns_connectedRun, switchSendTotal_connectedRun]
    refine ⟨?_, ?_, ?_⟩ <;> split <;> simp
  · rintro Ws ⟨W, hW, hs, ht⟩
    rw [effectfulRuns_connectedRun, submissionRuns_connectedRun, switchSendTotal_connectedRun]
    have hb : bothConnectedOnce Ws = true := by
      unfold bothConnectedOnce
      rw [List.any_eq_true]
      exact ⟨W, hW, by simp [hs, ht]⟩
    simp [hb]

end SwitchSends

section ConnectedCallbackMore

variable {R : Type} [LinearOrderedField R]

end ConnectedCallbackMore

/-! ## Properties of the switch result callback -/

section SResultCallbackProps

variable {R : Type} [LinearOrderedField R]

omit [LinearOrderedField R] in
theorem commandGoal_states (K : Constants) (F : Flags R) :
    (commandGoal K F : MotionGoal R).states = [] := by
  unfold commandGoal
  simp only [MotionGoal.init]
  split_ifs <;> rfl

theorem queryState_not_send (K : Constants) (F : Flags R) (W : World R) (g : MotionGoal R) :
    Event.motionSendGoal g ∉ (queryState K F W).1 := by
  unfold queryState
  cases h : W.lookupTransform K.FRAME_NAME_WORLD (bodyFrame K F) <;> simp [h]

omit [LinearOrderedField R] in
theorem att_nonempty_of_parsed (P : DoubleParser R) (F : Flags R)
    (h0 : (P.parse F.FLAGS_att).length ≠ 0) : F.FLAGS_att ≠ "" := by
  intro h
  rw [h, P.parse_empty] at h0
  exact h0 rfl

theorem moveBlock_invalid_att (K : Constants) (M : Libm R) (P : DoubleParser R) (F : Flags R)
    (W : World R) (goal : MotionGoal R) (hmove : F.FLAGS_move = true)
    (h0 : (P.parse F.FLAGS_att).length ≠ 0) (h1 : (P.parse F.FLAGS_att).length ≠ 1)
    (h4 : (P.parse F.FLAGS_att).length ≠ 4) :
    moveBlock K M P F W goal =
      ((queryState K F W).1 ++ [Event.print invalidAttText],
        { goal with command := K.MOVE }, true) := by
  have hatt := att_nonempty_of_parsed P F h0
  have hpos : 0 < (P.parse F.FLAGS_att).length := Nat.pos_of_ne_zero h0
  simp [moveBlock, overrideAttitude, hmove, hatt, h1, h4, hpos, invalidAttText]

theorem overrideAttitude_accepted (M : Libm R) (P : DoubleParser R) (F : Flags R)
    (state : PoseStamped R) (h : attCountAccepted P F) :
    (overrideAttitude M P F state).1 = [] ∧ (overrideAttitude M P F state).2.2 = false ∧
    (overrideAttitude M P F state).2.1.pose.position = state.pose.position ∧
    (overrideAttitude M P F state).2.1.header = state.header := by
  unfold overrideAttitude
  by_cases hatt : F.FLAGS_att = ""
  · simp [hatt]
  · simp only [ne_eq, hatt, not_false_eq_true, if_true]
    by_cases h1 : (P.parse F.FLAGS_att).length = 1
    · simp [h1]
    · by_cases h4 : (P.parse F.FLAGS_att).length = 4
      · simp [h4]
      · have h0 : (P.parse F.FLAGS_att).length = 0 := by
          rcases h with h | h | h
          · exact h
          · exact absurd h h1
          · exact absurd h h4
        simp [h0]

omit [LinearOrderedField R] in
theorem overridePosition_position (P : DoubleParser R) (F : Flags R) (state : PoseStamped R)
    (hk : (P.parse F.FLAGS_pos).length ≤ 3) :
    [(overridePosition P F state).pose.position.x, (overridePosition P F state).pose.position.y,
        (overridePosition P F state).pose.position.z] =
      P.parse F.FLAGS_pos ++
        [state.pose.position.x, state.pose.position.y, state.pose.position.z].drop
          (P.parse F.FLAGS_pos).length := by
  unfold overridePosition
  by_cases hpos : F.FLAGS_pos = ""
  · simp [hpos, P.parse_empty]
  · simp only [ne_eq, hpos, not_false_eq_true, if_true]
    rcases hv : P.parse F.FLAGS_pos with _ | ⟨a, _ | ⟨b, _ | ⟨c, _ | ⟨d, t⟩⟩⟩⟩
    · simp
    · simp
    · simp
    · simp
    · rw [hv] at hk
      simp at hk

theorem moveBlock_accepted (K : Constants) (M : Libm R) (P : DoubleParser R) (F : Flags R)
    (W : World R) (goal : MotionGoal R) (hmove : F.FLAGS_move = true)
    (h : attCountAccepted P F) :
    moveBlock K M P F W goal =
      ((queryState K F W).1,
        { goal with
            command := K.MOVE,
            states := goal.states ++
              [(overrideAttitude M P F
                (overridePosition P F (deferState F (queryState K F W).2))).2.1] },
        false) := by
  have ha := overrideAttitude_accepted M P F
    (overridePosition P F (deferState F (queryState K F W).2)) h
  simp [moveBlock, hmove, ha.1, ha.2.1]

/-- C2: in `SResultCallback` with result code `SUCCESS` and `-move` set, an `-att` string
that parses to a number of values other than 0, 1 and 4 aborts the resolution: the
message of lines 309-310 is printed, no pose is appended to the goal, `SendGoal` is not
called on the motion client, and the callback ends with `ros::shutdown()`. -/
theorem C2_invalid_att_count_aborts (K : Constants) (M : Libm R) (P : DoubleParser R)
    (F : Flags R) (W : World R) (hmove : F.FLAGS_move = true)
    (h0 : (P.parse F.FLAGS_att).length ≠ 0) (h1 : (P.parse F.FLAGS_att).length ≠ 1)
    (h4 : (P.parse F.FLAGS_att).length ≠ 4) :
    (SResultCallback K M P F W FreeFlyerActionState.SUCCESS).goal.states = [] ∧
    ¬ sendsMotionGoal (SResultCallback K M P F W FreeFlyerActionState.SUCCESS).trace ∧
    Event.print invalidAttText ∈ (SResultCallback K M P F W FreeFlyerActionState.SUCCESS).trace ∧
    (SResultCallback K M P F W FreeFlyerActionState.SUCCESS).trace.getLast? =
      some Event.shutdown := by
  have hm := fun g => moveBlock_invalid_att K M P F W g hmove h0 h1 h4
  have hq := queryState_not_send K F W
  refine ⟨?_, ?_, ?_, ?_⟩
  · simp only [SResultCallback, hm]
    simp [commandGoal_states]
  · rintro ⟨g, hg⟩
    simp only [SResultCallback, hm] at hg
    simp [hq] at hg
  · simp only [SResultCallback, hm]
    simp
  · simp only [SResultCallback, hm]
    simp [List.getLast?_append]

theorem queryState_ok (K : Constants) (F : Flags R) (W : World R) (tfs : TransformStamped R)
    (hlook : W.lookupTransform K.FRAME_NAME_WORLD (bodyFrame K F) = Except.ok tfs) :
    (queryState K F W).2.pose.position = tfs.transform.translation := by
  simp [queryState, hlook]

omit [LinearOrderedField R] in
theorem mem_sendBlock (W : World R) (goal : MotionGoal R) :
    Event.motionSendGoal goal ∈ sendBlock W goal := by
  unfold sendBlock
  split <;> simp

/-- C4: in `SResultCallback` with result code `SUCCESS`, `-move` set and the live pose
found, a `-pos` string that parses to `k <= 3` values gives a MOVE goal, sent to the
motion client, whose single pose has its first `k` coordinates (X, Y, Z in order) equal
to the parsed values and the remaining ones equal to the live translation. (The goal is
sent when `-att` has an accepted count of values and `-exec` is empty.) -/
theorem C4_position_override (K : Constants) (M : Libm R) (P : DoubleParser R)
    (F : Flags R) (W : World R) (tfs : TransformStamped R)
    (hmove : F.FLAGS_move = true)
    (hlook : W.lookupTransform K.FRAME_NAME_WORLD (bodyFrame K F) = Except.ok tfs)
    (hk : (P.parse F.FLAGS_pos).length ≤ 3)
    (hatt : attCountAccepted P F) (hexec : F.FLAGS_exec = "") :
    Event.motionSendGoal (SResultCallback K M P F W FreeFlyerActionState.SUCCESS).goal ∈
      (SResultCallback K M P F W FreeFlyerActionState.SUCCESS).trace ∧
    (SResultCallback K M P F W FreeFlyerActionState.SUCCESS).goal.command = K.MOVE ∧
    ∃ s, (SResultCallback K M P F W FreeFlyerActionState.SUCCESS).goal.states = [s] ∧
      [s.pose.position.x, s.pose.position.y, s.pose.position.z] =
        P.parse F.FLAGS_pos ++
          [tfs.transform.translation.x, tfs.transform.translation.y,
            tfs.transform.translation.z].drop (P.parse F.FLAGS_pos).length := by
  have hm := fun g => moveBlock_accepted K M P F W g hmove hatt
  have ha := overrideAttitude_accepted M P F
    (overridePosition P F (deferState F (queryState K F W).2)) hatt
  have hp := overridePosition_position P F (deferState F (queryState K F W).2) hk
  have hq := queryState_ok K F W tfs hlook
  have hd : (deferState F (queryState K F W).2).pose.position = tfs.transform.translation := by
    rw [← hq]; rfl
  rw [hd] at hp
  refine ⟨?_, ?_, ?_⟩
  · simp only [SResultCallback, hm, execBlock, hexec]
    simp [mem_sendBlock]
  · simp only [SResultCallback, hm, execBlock, hexec]
    simp
  · simp only [SResultCallback, hm, execBlock, hexec]
    simp only [commandGoal_states]
    simp [ha.2.2.1, hp]

end SResultCallbackProps

/-! ## Properties of the motion result callback -/

section MResultCallbackProps

variable {R : Type}

theorem caseText_injective : Function.Injective caseText := by
  unfold Function.Injective
  decide

theorem caseText_ne_unknown : ∀ n, caseText n ≠ "Error: unknown" := by
  decide

theorem responseMessage_named (K : Constants) (hK : Function.Injective K.response)
    (n : MotionResponse) : responseMessage K (K.response n) = caseText n := by
  cases n <;> simp [responseMessage, caseText, hK.eq_iff]

theorem responseMessage_unnamed (K : Constants) (r : Int) (h : ∀ n, r ≠ K.response n) :
    responseMessage K r = "Error: unknown" := by
  simp [responseMessage, h]

theorem recordBlock_some (K : Constants) (F : Flags R) (W : World R) (res : MotionResult) :
    recordBlock K F W (some res) =
      some (if F.FLAGS_rec ≠ "" then
        [Event.writeFile F.FLAGS_rec (recordedGoal K F res),
          Event.print (if W.writeFile F.FLAGS_rec (recordedGoal K F res) = true
            then "\n" ++ "Segment not saved" else "\n" ++ "Segment saved to " ++ F.FLAGS_rec)]
      else []) := by
  unfold recordBlock recordedGoal
  by_cases hrec : F.FLAGS_rec = ""
  · simp [hrec]
  · by_cases hw : W.writeFile F.FLAGS_rec
        { command := K.EXEC, flight_mode := F.FLAGS_mode, states := [], segment := res.segment }
    · simp [hrec, hw, MotionGoal.init]
    · simp [hrec, hw, MotionGoal.init]

/-- C5 (amended): the inner `switch` of `MResultCallback` names 28 response constants, not
27. For pairwise distinct constants (C++ rejects a repeated case label) each named value
maps to the fixed text of its case, distinct named values map to distinct texts, none of
them to the generic text, and every value outside the named ones maps to
`"Error: unknown"`; for the result codes `SUCCESS`, `PREEMPTED` and `ABORTED` with a
payload, `MResultCallback` ends by printing that text and calling `ros::shutdown()`. -/
theorem C5_response_messages (K : Constants) (hK : Function.Injective K.response) :
    Fintype.card MotionResponse = 28 ∧
    (∀ n, responseMessage K (K.response n) = caseText n) ∧
    Function.Injective (fun n => responseMessage K (K.response n)) ∧
    (∀ n, responseMessage K (K.response n) ≠ "Error: unknown") ∧
    (∀ r : Int, (∀ n, r ≠ K.response n) → responseMessage K r = "Error: unknown") ∧
    (∀ (F : Flags R) (W : World R) (res : MotionResult) (result_code : FreeFlyerActionState),
      result_code = FreeFlyerActionState.SUCCESS ∨ result_code = FreeFlyerActionState.PREEMPTED ∨
          result_code = FreeFlyerActionState.ABORTED →
        ∃ pre, MResultCallback K F W result_code (some res) =
          some (pre ++ [Event.print ("\n" ++ "Result: "),
            Event.print (responseMessage K res.response ++ "\n"), Event.shutdown])) := by
  refine ⟨by decide, responseMessage_named K hK, ?_, ?_, responseMessage_unnamed K, ?_⟩
  · intro n m h
    simp only [responseMessage_named K hK] at h
    exact caseText_injective h
  · intro n
    rw [responseMessage_named K hK]
    exact caseText_ne_unknown n
  · rintro F W res result_code (h | h | h)
    · subst h
      exact ⟨if F.FLAGS_rec ≠ "" then
          [Event.writeFile F.FLAGS_rec (recordedGoal K F res),
            Event.print (if W.writeFile F.FLAGS_rec (recordedGoal K F res) = true
              then "\n" ++ "Segment not saved" else "\n" ++ "Segment saved to " ++ F.FLAGS_rec)]
        else [], by simp [MResultCallback, recordBlock_some, reportBlock]⟩
    · subst h
      exact ⟨[], by simp [MResultCallback, reportBlock]⟩
    · subst h
      exact ⟨[], by simp [MResultCallback, reportBlock]⟩

/-- C6 (amended): for every result code other than `SUCCESS`, `PREEMPTED` and `ABORTED`,
`MResultCallback` does the same whatever the payload (a null payload included) and ends
with `ros::shutdown()`; each of the four timeout kinds prints its own text first, the
four texts being distinct, and any other code prints nothing. -/
theorem C6_timeout_codes (K : Constants) (F : Flags R) (W : World R)
    (result : Option MotionResult) :
    MResultCallback K F W FreeFlyerActionState.TIMEOUT_ON_CONNECT result =
      some [Event.print "Timeout on connecting to action\n", Event.shutdown] ∧
    MResultCallback K F W FreeFlyerActionState.TIMEOUT_ON_ACTIVE result =
      some [Event.print "Timeout on action going active\n", Event.shutdown] ∧
    MResultCallback K F W FreeFlyerActionState.TIMEOUT_ON_RESPONSE result =
      some [Event.print "Timeout on receiving a response\n", Event.shutdown] ∧
    MResultCallback K F W FreeFlyerActionState.TIMEOUT_ON_DEADLINE result =
      some [Event.print "Timeout on result deadline\n", Event.shutdown] ∧
    (∀ raw, MResultCallback K F W (FreeFlyerActionState.OTHER raw) result =
      some [Event.shutdown]) ∧
    ["Timeout on connecting to action\n", "Timeout on action going active\n",
      "Timeout on receiving a response\n", "Timeout on result deadline\n"].Nodup := by
  refine ⟨?_, ?_, ?_, ?_, ?_, by decide⟩ <;> simp [MResultCallback]

theorem MResultCallback_success (K : Constants) (F : Flags R) (W : World R)
    (res : MotionResult) :
    MResultCallback K F W FreeFlyerActionState.SUCCESS (some res) =
      some ((if F.FLAGS_rec ≠ "" then
          [Event.writeFile F.FLAGS_rec (recordedGoal K F res),
            Event.print (if W.writeFile F.FLAGS_rec (recordedGoal K F res) = true
              then "\n" ++ "Segment not saved" else "\n" ++ "Segment saved to " ++ F.FLAGS_rec)]
        else []) ++
        [Event.print ("\n" ++ "Result: "),
          Event.print (responseMessage K res.response ++ "\n"), Event.shutdown]) := by
  simp [MResultCallback, recordBlock_some, reportBlock]

theorem MResultCallback_null (K : Constants) (F : Flags R) (W : World R)
    (result_code : FreeFlyerActionState) (tr : List (Event R))
    (h : MResultCallback K F W result_code none = some tr) : ¬ writesFile tr ∧
      result_code ≠ FreeFlyerActionState.SUCCESS := by
  cases result_code with
  | SUCCESS =>
    exfalso
    by_cases hrec : F.FLAGS_rec = "" <;>
      simp [MResultCallback, recordBlock, reportBlock, hrec] at h
  | PREEMPTED => simp [MResultCallback, reportBlock] at h
  | ABORTED => simp [MResultCallback, reportBlock] at h
  | TIMEOUT_ON_CONNECT =>
    simp only [MResultCallback, Option.some.injEq] at h
    subst h
    simp [writesFile]
  | TIMEOUT_ON_ACTIVE =>
    simp only [MResultCallback, Option.some.injEq] at h
    subst h
    simp [writesFile]
  | TIMEOUT_ON_RESPONSE =>
    simp only [MResultCallback, Option.some.injEq] at h
    subst h
    simp [writesFile]
  | TIMEOUT_ON_DEADLINE =>
    simp only [MResultCallback, Option.some.injEq] at h
    subst h
    simp [writesFile]
  | OTHER raw =>
    simp only [MResultCallback, Option.some.injEq] at h
    subst h
    simp [writesFile]

theorem MResultCallback_payload (K : Constants) (F : Flags R) (W : World R)
    (res : MotionResult) (result_code : FreeFlyerActionState) :
    ∃ tr, MResultCallback K F W result_code (some res) = some tr ∧
      (writesFile tr ↔ (result_code = FreeFlyerActionState.SUCCESS ∧ F.FLAGS_rec ≠ "")) ∧
      (∀ path msg, Event.writeFile path msg ∈ tr →
        path = F.FLAGS_rec ∧ msg = recordedGoal K F res) := by
  cases result_code with
  | SUCCESS =>
    refine ⟨_, MResultCallback_success K F W res, ?_, ?_⟩
    · unfold writesFile
      by_cases hrec : F.FLAGS_rec = ""
      · simp [hrec]
      · simp only [ne_eq, hrec, not_false_eq_true, if_true, and_self, iff_true]
        exact ⟨F.FLAGS_rec, recordedGoal K F res, by simp⟩
    · intro path msg hmem
      by_cases hrec : F.FLAGS_rec = ""
      · simp [hrec] at hmem
      · simpa [hrec] using hmem
  | PREEMPTED => exact ⟨_, rfl, by simp [writesFile]⟩
  | ABORTED => exact ⟨_, rfl, by simp [writesFile]⟩
  | TIMEOUT_ON_CONNECT => exact ⟨_, rfl, by simp [writesFile]⟩
  | TIMEOUT_ON_ACTIVE => exact ⟨_, rfl, by simp [writesFile]⟩
  | TIMEOUT_ON_RESPONSE => exact ⟨_, rfl, by simp [writesFile]⟩
  | TIMEOUT_ON_DEADLINE => exact ⟨_, rfl, by simp [writesFile]⟩
  | OTHER raw => exact ⟨_, rfl, by simp [writesFile]⟩

/-- C7: `MResultCallback` calls `WriteFile` iff the result code is `SUCCESS` and `-rec`
is non-empty (for every run that completes, and every run with a payload completes);
the call is on the path `-rec` with a goal whose command is `EXEC`, whose flight mode is
`-mode` and whose segment is the returned one; and on `SUCCESS` the trace ends with the
same report of the detailed response whatever `WriteFile` answers. -/
theorem C7_recording (K : Constants) (F : Flags R) (W : World R) (res : MotionResult)
    (result_code : FreeFlyerActionState) :
    (∃ tr, MResultCallback K F W result_code (some res) = some tr ∧
      (∀ path msg, Event.writeFile path msg ∈ tr →
        path = F.FLAGS_rec ∧ msg.command = K.EXEC ∧ msg.flight_mode = F.FLAGS_mode ∧
          msg.segment = res.segment)) ∧
    (∀ (result : Option MotionResult) (tr : List (Event R)),
      MResultCallback K F W result_code result = some tr →
        (writesFile tr ↔ (result_code = FreeFlyerActionState.SUCCESS ∧ F.FLAGS_rec ≠ ""))) ∧
    (∀ W2 : World R, ∃ pre pre2,
      MResultCallback K F W FreeFlyerActionState.SUCCESS (some res) =
        some (pre ++ [Event.print ("\n" ++ "Result: "),
          Event.print (responseMessage K res.response ++ "\n"), Event.shutdown]) ∧
      MResultCallback K F W2 FreeFlyerActionState.SUCCESS (some res) =
        some (pre2 ++ [Event.print ("\n" ++ "Result: "),
          Event.print (responseMessage K res.response ++ "\n"), Event.shutdown])) := by
  refine ⟨?_, ?_, ?_⟩
  · obtain ⟨tr, htr, _, hgoal⟩ := MResultCallback_payload K F W res result_code
    refine ⟨tr, htr, fun path msg hmem => ?_⟩
    obtain ⟨hp, hm⟩ := hgoal path msg hmem
    subst hm
    exact ⟨hp, rfl, rfl, rfl⟩
  · intro result tr h
    cases result with
    | none =>
      obtain ⟨hw, hc⟩ := MResultCallback_null K F W result_code tr h
      exact ⟨fun hwr => absurd hwr hw, fun hsr => absurd hsr.1 hc⟩
    | some res2 =>
      obtain ⟨tr2, htr2, hiff, _⟩ := MResultCallback_payload K F W res2 result_code
      rw [htr2] at h
      cases h
      exact hiff
  · intro W2
    exact ⟨_, _, MResultCallback_success K F W res, MResultCallback_success K F W2 res⟩

end MResultCallbackProps

/-! ## Properties of the flag checks of `main` -/

section MainProps

variable {R : Type} [LinearOrderedField R]

omit [LinearOrderedField R] in
theorem modeCount_eq (F : Flags R) : modeCount F = selectedMotionIntents F := by
  unfold modeCount selectedMotionIntents
  by_cases he : F.FLAGS_exec = "" <;>
    cases F.FLAGS_move <;> cases F.FLAGS_stop <;> cases F.FLAGS_idle <;>
    cases F.FLAGS_prep <;> simp [he]

omit [LinearOrderedField R] in
theorem selectedIntents_eq (F : Flags R) :
    selectedIntents F = (if F.FLAGS_loc = "" then 0 else 1) + selectedMotionIntents F := by
  unfold selectedIntents selectedMotionIntents
  by_cases hl : F.FLAGS_loc = "" <;> simp [hl, List.count_cons]
  omega

theorem mainChecks_eq (F : Flags R) :
    mainChecks F =
      if selectedIntents F = 0 then some (mustSpecifyText, 1)
      else if 1 < selectedMotionIntents F then some (onlyOneText, 1)
      else if F.FLAGS_connect ≤ 0 then some ("Your connect timeout must be positive" ++ "\n", 1)
      else if F.FLAGS_active ≤ 0 then some ("Your active timeout must be positive" ++ "\n", 1)
      else if F.FLAGS_response ≤ 0 then
        some ("Your response timeout must be positive" ++ "\n", 1)
      else none := by
  unfold mainChecks
  simp only [modeCount_eq, selectedIntents_eq]
  by_cases hl : F.FLAGS_loc = ""
  · simp [hl]
  · simp [hl]

/-- C8 (amended): the flag checks of `main` count only the five motion intents (move,
stop, idle, prep, `-exec`), so `-loc` may accompany one of them. `main` goes on to
create the action clients iff at least one of the six intents is selected, at most one
of the five motion intents is selected, and the three timeouts are positive; a
configuration selecting none of the six, or more than one of the five motion intents,
is reported and exits with status 1, as does every other rejection. -/
theorem C8_flag_checks (F : Flags R) :
    (mainChecks F = none ↔
      (1 ≤ selectedIntents F ∧ selectedMotionIntents F ≤ 1 ∧
        0 < F.FLAGS_connect ∧ 0 < F.FLAGS_active ∧ 0 < F.FLAGS_response)) ∧
    (selectedIntents F = 0 → mainChecks F = some (mustSpecifyText, 1)) ∧
    (1 < selectedMotionIntents F → mainChecks F = some (onlyOneText, 1)) ∧
    (∀ text status, mainChecks F = some (text, status) → status = 1) := by
  rw [mainChecks_eq]
  refine ⟨?_, ?_, ?_, ?_⟩
  · by_cases h0 : selectedIntents F = 0
    · simp [h0]
    · by_cases h1 : 1 < selectedMotionIntents F
      · simp [h0, h1]
      · simp only [h0, h1, if_false]
        have h0p : 1 ≤ selectedIntents F := Nat.pos_of_ne_zero h0
        have h1p : selectedMotionIntents F ≤ 1 := Nat.le_of_not_lt h1
        by_cases hc : F.FLAGS_connect ≤ 0
        · simp [hc, not_lt.mpr hc]
        · by_cases ha : F.FLAGS_active ≤ 0
          · simp [hc, ha, not_lt.mpr ha]
          · by_cases hr : F.FLAGS_response ≤ 0
            · simp [hc, ha, hr, not_lt.mpr hr]
            · simp only [hc, ha, hr, if_false, true_iff]
              exact ⟨h0p, h1p, not_le.mp hc, not_le.mp ha, not_le.mp hr⟩
  · intro h0
    simp [h0]
  · intro h1
    have h0 : selectedIntents F ≠ 0 := by
      rw [selectedIntents_eq]; omega
    simp [h0, h1]
  · intro text status h
    split_ifs at h
    all_goals
      simp at h
      exact h.2.symm

end MainProps

/-! ## Properties of the orientation override -/

section OrientationProps

variable {R : Type} [LinearOrderedField R]

theorem SResultCallback_move_goal (K : Constants) (M : Libm R) (P : DoubleParser R)
    (F : Flags R) (W : World R) (hmove : F.FLAGS_move = true)
    (hatt : attCountAccepted P F) (hexec : F.FLAGS_exec = "") :
    (SResultCallback K M P F W FreeFlyerActionState.SUCCESS).goal.states =
      [(overrideAttitude M P F
        (overridePosition P F (deferState F (queryState K F W).2))).2.1] ∧
    Event.motionSendGoal (SResultCallback K M P F W FreeFlyerActionState.SUCCESS).goal ∈
      (SResultCallback K M P F W FreeFlyerActionState.SUCCESS).trace := by
  have hm := fun g => moveBlock_accepted K M P F W g hmove hatt
  constructor
  · simp only [SResultCallback, hm, execBlock, hexec]
    simp [commandGoal_states]
  · simp only [SResultCallback, hm, execBlock, hexec]
    simp [mem_sendBlock]

theorem overrideAttitude_four (M : Libm R) (P : DoubleParser R) (F : Flags R)
    (state : PoseStamped R) (a x y z : R) (hatt : P.parse F.FLAGS_att = [a, x, y, z]) :
    (overrideAttitude M P F state).2.1.pose.orientation = axisAngleOrientation M a x y z := by
  have hne : F.FLAGS_att ≠ "" := by
    intro h
    rw [h, P.parse_empty] at hatt
    cases hatt
  simp [overrideAttitude, hne, hatt]

theorem axisAngleOrientation_real (M : Libm ℝ) (hM : M.IsReal) (a x y z : ℝ) :
    axisAngleOrientation M a x y z =
      { w := Real.cos (a / 2), x := Real.sin (a / 2) * x, y := Real.sin (a / 2) * y,
        z := Real.sin (a / 2) * z } := by
  have h2 : (1 / 2 : ℝ) * a = a / 2 := by ring
  simp only [axisAngleOrientation, Quat.ofAngleAxis, hM.2.1, hM.2.2.1, h2]

theorem normSq_axisAngle (a x y z : ℝ) :
    Quat.normSq
        ({ w := Real.cos (a / 2), x := Real.sin (a / 2) * x, y := Real.sin (a / 2) * y,
           z := Real.sin (a / 2) * z } : Quat ℝ) =
      1 + Real.sin (a / 2) ^ 2 * (x * x + y * y + z * z - 1) := by
  have h := Real.cos_sq_add_sin_sq (a / 2)
  simp only [Quat.normSq]
  linear_combination h

theorem move_orientation_four (K : Constants) (M : Libm ℝ) (hM : M.IsReal)
    (P : DoubleParser ℝ) (F : Flags ℝ) (W : World ℝ) (a x y z : ℝ)
    (hmove : F.FLAGS_move = true) (hatt : P.parse F.FLAGS_att = [a, x, y, z])
    (hexec : F.FLAGS_exec = "") :
    ∃ s, (SResultCallback K M P F W FreeFlyerActionState.SUCCESS).goal.states = [s] ∧
      Event.motionSendGoal (SResultCallback K M P F W FreeFlyerActionState.SUCCESS).goal ∈
        (SResultCallback K M P F W FreeFlyerActionState.SUCCESS).trace ∧
      s.pose.orientation =
        { w := Real.cos (a / 2), x := Real.sin (a / 2) * x, y := Real.sin (a / 2) * y,
          z := Real.sin (a / 2) * z } := by
  have hacc : attCountAccepted P F := by
    unfold attCountAccepted
    rw [hatt]
    simp
  obtain ⟨hs, hsend⟩ := SResultCallback_move_goal K M P F W hmove hacc hexec
  refine ⟨_, hs, hsend, ?_⟩
  rw [overrideAttitude_four M P F _ a x y z hatt, axisAngleOrientation_real M hM]

/-- C11 (amended): in `SResultCallback` with result code `SUCCESS`, `-move` set and an
`-att` of four values `(angle, x, y, z)`, the orientation of the pose in the goal sent to
the motion client is `(w, x, y, z) = (cos(angle/2), sin(angle/2) * (x, y, z))`, the axis
being used as given. For a unit axis this is the closed-form axis-angle quaternion and
has norm 1; in general its squared norm is `1 + sin(angle/2)^2 * (|axis|^2 - 1)`. (Doubles
are taken as reals with exact libm functions.) -/
theorem C11_axis_angle_unit_axis (K : Constants) (M : Libm ℝ) (hM : M.IsReal)
    (P : DoubleParser ℝ) (F : Flags ℝ) (W : World ℝ) (a x y z : ℝ)
    (hmove : F.FLAGS_move = true) (hatt : P.parse F.FLAGS_att = [a, x, y, z])
    (hexec : F.FLAGS_exec = "") :
    ∃ s, (SResultCallback K M P F W FreeFlyerActionState.SUCCESS).goal.states = [s] ∧
      Event.motionSendGoal (SResultCallback K M P F W FreeFlyerActionState.SUCCESS).goal ∈
        (SResultCallback K M P F W FreeFlyerActionState.SUCCESS).trace ∧
      s.pose.orientation =
        { w := Real.cos (a / 2), x := Real.sin (a / 2) * x, y := Real.sin (a / 2) * y,
          z := Real.sin (a / 2) * z } ∧
      s.pose.orientation.normSq = 1 + Real.sin (a / 2) ^ 2 * (x * x + y * y + z * z - 1) ∧
      (x * x + y * y + z * z = 1 → s.pose.orientation.normSq = 1) := by
  obtain ⟨s, hs, hsend, ho⟩ := move_orientation_four K M hM P F W a x y z hmove hatt hexec
  refine ⟨s, hs, hsend, ho, ?_, ?_⟩
  · rw [ho, normSq_axisAngle]
  · intro hu
    rw [ho, normSq_axisAngle, hu]
    ring

end OrientationProps

/-! ## Evaluations at concrete inputs -/

section Evaluations

/-- C2 at a concrete input: `-move -att "1 2"` (two values). -/
theorem C2_invalid_att_count_aborts_witness :
    (decimalParser.parse "1 2").length = 2 ∧
    (SResultCallback sampleConstants sampleLibm decimalParser
        { (Flags.defaults : Flags ℚ) with FLAGS_move := true, FLAGS_att := "1 2" }
        sampleWorld FreeFlyerActionState.SUCCESS).goal.states = [] ∧
    ¬ sendsMotionGoal (SResultCallback sampleConstants sampleLibm decimalParser
        { (Flags.defaults : Flags ℚ) with FLAGS_move := true, FLAGS_att := "1 2" }
        sampleWorld FreeFlyerActionState.SUCCESS).trace :=
  have h := C2_invalid_att_count_aborts sampleConstants sampleLibm decimalParser
    { (Flags.defaults : Flags ℚ) with FLAGS_move := true, FLAGS_att := "1 2" }
    sampleWorld rfl (by decide) (by decide) (by decide)
  ⟨by decide, h.1, h.2.1⟩

theorem decimalParser_scenario : decimalParser.parse "1.0 2.0" = [1, 2] := by
  have h : readNumbers "1.0 2.0".data.length "1.0 2.0".data =
      [(false, 10, 1), (false, 20, 1)] := by decide
  simp only [decimalParser, h]
  norm_num [decimalValue]

/-- C4 at a concrete input, the scenario of the specification: `-pos "1.0 2.0"` on the
live position `(0, 0, 0)` gives the target position `(1.0, 2.0, 0)`. -/
theorem C4_position_override_witness :
    decimalParser.parse "1.0 2.0" = [1, 2] ∧
    ∃ s, (SResultCallback sampleConstants sampleLibm decimalParser
        { (Flags.defaults : Flags ℚ) with FLAGS_move := true, FLAGS_pos := "1.0 2.0" }
        sampleWorld FreeFlyerActionState.SUCCESS).goal.states = [s] ∧
      [s.pose.position.x, s.pose.position.y, s.pose.position.z] = [1, 2, 0] := by
  have h := C4_position_override sampleConstants sampleLibm decimalParser
    { (Flags.defaults : Flags ℚ) with FLAGS_move := true, FLAGS_pos := "1.0 2.0" }
    sampleWorld
    { header := { seq := 0, stamp := 0, frame_id := "world" }, child_frame_id := "body",
      transform := { translation := ⟨0, 0, 0⟩, rotation := ⟨0, 0, 0, 1⟩ } }
    rfl rfl (by decide) (Or.inl (by decide)) rfl
  refine ⟨decimalParser_scenario, ?_⟩
  obtain ⟨s, hs, hpos⟩ := h.2.2
  refine ⟨s, hs, ?_⟩
  rw [hpos]
  show decimalParser.parse "1.0 2.0" ++ _ = _
  rw [decimalParser_scenario]
  rfl

/-- C1 at a concrete input: three invocations, the first with the motion client not yet
connected, the next two with both clients connected. With `-stop` the second invocation
alone has effects, those of `SResultCallback` with `SUCCESS`; with `-loc ml` the switch
goal is sent once. -/
theorem C1_submission_runs_once_witness :
    effectfulRuns (connectedRun sampleConstants sampleLibm decimalParser
      { (Flags.defaults : Flags ℚ) with FLAGS_stop := true }
      [{ sampleWorld with motion_connected := false }, sampleWorld, sampleWorld] false) = 1 ∧
    connectedRun sampleConstants sampleLibm decimalParser
      { (Flags.defaults : Flags ℚ) with FLAGS_stop := true }
      [{ sampleWorld with motion_connected := false }, sampleWorld, sampleWorld] false =
      [[],
       [Event.print "All actions connected. Sending command...\n",
        Event.motionSendGoal { command := 0, flight_mode := "", states := [], segment := [] }],
       []] ∧
    switchSendTotal (connectedRun sampleConstants sampleLibm decimalParser
      { (Flags.defaults : Flags ℚ) with FLAGS_loc := "ml" }
      [{ sampleWorld with motion_connected := false }, sampleWorld, sampleWorld] false) = 1 :=
  ⟨((C1_submission_runs_once sampleConstants sampleLibm decimalParser
      { (Flags.defaults : Flags ℚ) with FLAGS_stop := true }).2.2.2.2
      [{ sampleWorld with motion_connected := false }, sampleWorld, sampleWorld]
      ⟨sampleWorld, by simp, rfl, rfl⟩).2.1,
   by simp [connectedRun, ConnectedCallback, submission, allConnectedText, SResultCallback,
      moveBlock, execBlock, sendBlock, commandGoal, Flags.defaults, sampleWorld,
      sampleConstants, MotionGoal.init],
   ((C1_submission_runs_once sampleConstants sampleLibm decimalParser
      { (Flags.defaults : Flags ℚ) with FLAGS_loc := "ml" }).2.2.2.2
      [{ sampleWorld with motion_connected := false }, sampleWorld, sampleWorld]
      ⟨sampleWorld, by simp, rfl, rfl⟩).2.2 (by decide)⟩

/-- C3 at the failing input: `-move` alone, with `lookupTransform` throwing. The handler
prints and calls `ros::shutdown()`, after which the callback still builds a MOVE goal
from the zero-initialised pose and calls `SendGoal` on the motion client. -/
theorem C3_lookup_failure_still_sends :
    (SResultCallback sampleConstants sampleLibm decimalParser
        { (Flags.defaults : Flags ℚ) with FLAGS_move := true }
        { sampleWorld with lookupTransform := fun _ _ => Except.error "unavailable" }
        FreeFlyerActionState.SUCCESS).trace =
      ([Event.lookupTransform "world" "body",
        Event.print "Could not query the pose of the robot: unavailable\n",
        Event.shutdown,
        Event.motionSendGoal
          { command := 3, flight_mode := "",
            states := [{ header := { seq := 0, stamp := 0, frame_id := "" },
                         pose := { position := ⟨0, 0, 0⟩, orientation := ⟨0, 0, 0, 0⟩ } }],
            segment := [] }] : List (Event ℚ)) := by
  simp [SResultCallback, moveBlock, queryState, deferState, overridePosition, overrideAttitude,
    execBlock, sendBlock, commandGoal, Flags.defaults, sampleWorld, sampleConstants, bodyFrame,
    PoseStamped.init, MotionGoal.init]

theorem sampleConstants_injective : Function.Injective sampleConstants.response := by
  unfold Function.Injective
  decide

/-- C5 (amended) at a concrete input: the sample constants. -/
theorem C5_response_messages_witness :
    Function.Injective sampleConstants.response ∧
    responseMessage sampleConstants (-25) = "Omega tolerance violated" ∧
    responseMessage sampleConstants (-26) = "Error: unknown" :=
  have h := C5_response_messages (R := ℚ) sampleConstants sampleConstants_injective
  ⟨sampleConstants_injective, h.2.1 MotionResponse.TOLERANCE_VIOLATION_OMEGA,
    h.2.2.2.2.1 (-26) (by decide)⟩

/-- C5 as stated fails: the inner `switch` names 28 response constants, not 27; under
the sample constants they are 28 distinct values, none of which maps to the generic
text, so no set of 27 values has everything outside it mapped to `"Error: unknown"`. -/
theorem C5_named_values_not_27 :
    Fintype.card MotionResponse ≠ 27 ∧
    (Finset.univ.image sampleConstants.response).card = 28 ∧
    ∀ r ∈ Finset.univ.image sampleConstants.response,
      responseMessage sampleConstants r ≠ "Error: unknown" := by
  decide

/-- C6 as stated fails for an unrecognized result code: `MResultCallback` takes the
`default:` label of line 179, prints no category at all and calls `ros::shutdown()`. -/
theorem C6_unrecognized_code_reports_nothing :
    MResultCallback sampleConstants (Flags.defaults : Flags ℚ) sampleWorld
      (FreeFlyerActionState.OTHER 99) none = some [Event.shutdown] := by
  rfl

/-- C8 at a concrete input: `-loc ml -move` selects two of the six intents and passes
the flag checks of `main`. -/
theorem C8_two_intents_pass :
    selectedIntents { (Flags.defaults : Flags ℚ) with FLAGS_loc := "ml", FLAGS_move := true } = 2 ∧
    mainChecks { (Flags.defaults : Flags ℚ) with FLAGS_loc := "ml", FLAGS_move := true } = none := by
  constructor
  · decide
  · rw [mainChecks_eq]
    have h0 : selectedIntents
        { (Flags.defaults : Flags ℚ) with FLAGS_loc := "ml", FLAGS_move := true } ≠ 0 := by
      decide
    have h1 : ¬ 1 < selectedMotionIntents
        { (Flags.defaults : Flags ℚ) with FLAGS_loc := "ml", FLAGS_move := true } := by
      decide
    rw [if_neg h0, if_neg h1]
    norm_num [Flags.defaults]

/-- C10 at the failing input: `-loc ml` with the switch client declining the goal.
`ConnectedCallback` reports the rejection and returns without `ros::shutdown()`. The
sibling path does end the run: with `-stop` and the motion client declining the goal,
`SResultCallback` reports the rejection and reaches `ros::shutdown()`. -/
theorem C10_switch_rejection_no_shutdown :
    (ConnectedCallback sampleConstants sampleLibm decimalParser
        { (Flags.defaults : Flags ℚ) with FLAGS_loc := "ml" }
        { sampleWorld with switchSendGoal := fun _ => false } false).trace =
      [Event.print "All actions connected. Sending command...\n",
        Event.switchSendGoal { pipeline := "ml" },
        Event.print "Switch client did not accept goal\n"] ∧
    Event.shutdown ∉ (ConnectedCallback sampleConstants sampleLibm decimalParser
        { (Flags.defaults : Flags ℚ) with FLAGS_loc := "ml" }
        { sampleWorld with switchSendGoal := fun _ => false } false).trace ∧
    (SResultCallback sampleConstants sampleLibm decimalParser
        { (Flags.defaults : Flags ℚ) with FLAGS_stop := true }
        { sampleWorld with motionSendGoal := fun _ => false }
        FreeFlyerActionState.SUCCESS).trace =
      [Event.motionSendGoal { command := 0, flight_mode := "", states := [], segment := [] },
        Event.print "Mobility client did not accept goal\n",
        Event.print "Error: PREEMPTED\n", Event.shutdown] := by
  refine ⟨?_, ?_, ?_⟩
  · simp [ConnectedCallback, submission, allConnectedText, Flags.defaults, sampleWorld]
  · simp [ConnectedCallback, submission, allConnectedText, Flags.defaults, sampleWorld]
  · simp [SResultCallback, moveBlock, execBlock, sendBlock, commandGoal, Flags.defaults,
      sampleWorld, sampleConstants, MotionGoal.init]

theorem castParser_unit_axis :
    (castParser decimalParser : DoubleParser ℝ).parse "1 0 0 1" = [1, 0, 0, 1] := by
  have h : readNumbers "1 0 0 1".data.length "1 0 0 1".data =
      [(false, 1, 0), (false, 0, 0), (false, 0, 0), (false, 1, 0)] := by decide
  simp only [castParser, decimalParser, h]
  norm_num [decimalValue]

theorem castParser_long_axis :
    (castParser decimalParser : DoubleParser ℝ).parse "1 0 0 2" = [1, 0, 0, 2] := by
  have h : readNumbers "1 0 0 2".data.length "1 0 0 2".data =
      [(false, 1, 0), (false, 0, 0), (false, 0, 0), (false, 2, 0)] := by decide
  simp only [castParser, decimalParser, h]
  norm_num [decimalValue]

/-- C11 (amended) at a concrete input: `-move -att "1 0 0 1"`, one radian about the unit
axis Z, gives a unit quaternion. -/
theorem C11_axis_angle_unit_axis_witness :
    (castParser decimalParser : DoubleParser ℝ).parse "1 0 0 1" = [1, 0, 0, 1] ∧
    ∃ s, (SResultCallback sampleConstants
        ({ sqrt := Real.sqrt, cos := Real.cos, sin := Real.sin,
           atan2 := fun y x => Complex.arg ⟨x, y⟩ } : Libm ℝ)
        (castParser decimalParser)
        { (Flags.defaults : Flags ℝ) with FLAGS_move := true, FLAGS_att := "1 0 0 1" }
        originWorld FreeFlyerActionState.SUCCESS).goal.states = [s] ∧
      s.pose.orientation =
        { w := Real.cos (1 / 2), x := Real.sin (1 / 2) * 0, y := Real.sin (1 / 2) * 0,
          z := Real.sin (1 / 2) * 1 } ∧
      s.pose.orientation.normSq = 1 := by
  obtain ⟨s, hs, _, ho, _, hn⟩ := C11_axis_angle_unit_axis sampleConstants
    ({ sqrt := Real.sqrt, cos := Real.cos, sin := Real.sin,
       atan2 := fun y x => Complex.arg ⟨x, y⟩ } : Libm ℝ)
    ⟨fun _ => rfl, fun _ => rfl, fun _ => rfl, fun _ _ => rfl⟩
    (castParser decimalParser)
    { (Flags.defaults : Flags ℝ) with FLAGS_move := true, FLAGS_att := "1 0 0 1" }
    originWorld 1 0 0 1 rfl castParser_unit_axis rfl
  exact ⟨castParser_unit_axis, s, hs, ho, hn (by norm_num)⟩

/-- C11 as stated fails: `-move -att "1 0 0 2"`, one radian about the axis `(0, 0, 2)`,
gives the orientation `(cos(1/2), 0, 0, 2 sin(1/2))`: the axis is not normalized, the
quaternion is not a unit one, and it differs from the one for the axis `(0, 0, 1)`. -/
theorem C11_axis_not_normalized :
    ∃ s, (SResultCallback sampleConstants
        ({ sqrt := Real.sqrt, cos := Real.cos, sin := Real.sin,
           atan2 := fun y x => Complex.arg ⟨x, y⟩ } : Libm ℝ)
        (castParser decimalParser)
        { (Flags.defaults : Flags ℝ) with FLAGS_move := true, FLAGS_att := "1 0 0 2" }
        originWorld FreeFlyerActionState.SUCCESS).goal.states = [s] ∧
      s.pose.orientation =
        { w := Real.cos (1 / 2), x := Real.sin (1 / 2) * 0, y := Real.sin (1 / 2) * 0,
          z := Real.sin (1 / 2) * 2 } ∧
      s.pose.orientation.normSq ≠ 1 ∧
      s.pose.orientation.z ≠ Real.sin (1 / 2) * 1 := by
  obtain ⟨s, hs, _, ho⟩ := move_orientation_four sampleConstants
    ({ sqrt := Real.sqrt, cos := Real.cos, sin := Real.sin,
       atan2 := fun y x => Complex.arg ⟨x, y⟩ } : Libm ℝ)
    ⟨fun _ => rfl, fun _ => rfl, fun _ => rfl, fun _ _ => rfl⟩
    (castParser decimalParser)
    { (Flags.defaults : Flags ℝ) with FLAGS_move := true, FLAGS_att := "1 0 0 2" }
    originWorld 1 0 0 2 rfl castParser_long_axis rfl
  have hsin : 0 < Real.sin (1 / 2) :=
    Real.sin_pos_of_pos_of_lt_pi (by norm_num) (by linarith [Real.pi_gt_three])
  refine ⟨s, hs, ho, ?_, ?_⟩
  · rw [ho, normSq_axisAngle]
    intro h
    nlinarith [hsin, sq_nonneg (Real.sin (1 / 2))]
  · rw [ho]
    show Real.sin (1 / 2) * 2 ≠ Real.sin (1 / 2) * 1
    intro h
    linarith

end Evaluations

end Teleop
